import Mathlib

/-!
Verification of the distillation orchestration engine of the qa-generator
repository against its natural-language specification.

The Python sources are shallowly embedded as Lean definitions:
- machine floats are idealized as rationals;
- remote provider calls are abstracted as oracle functions supplied to the
  embedded pipeline functions (the Python code treats their results as
  opaque data as well);
- Python exceptions (ValueError, ZeroDivisionError, IndexError) are made
  explicit as Except results;
- datetime values are abstracted to their observable projections (the
  strftime date and hour keys used by the budget tracker, the numeric
  time.time value used by the rate limiter).
-/

/- ===================================================================
   src/backend/distillation/cost_optimizer.py
   =================================================================== -/

/-- CostBudget dataclass: budget constraints for dataset generation. -/
structure CostBudget where
  total_budget : ℚ
  daily_budget : Option ℚ
  hourly_budget : Option ℚ
  cost_per_item_limit : Option ℚ
  quality_cost_ratio_min : ℚ
deriving DecidableEq

/-- ModelCostProfile dataclass: cost profile for a model. -/
structure ModelCostProfile where
  provider : String
  model_name : String
  input_cost_per_token : ℚ
  output_cost_per_token : ℚ
  quality_rating : ℚ
  speed_rating : ℚ
  reliability_rating : ℚ
deriving DecidableEq

/-- GenerationCostEstimate dataclass. -/
structure GenerationCostEstimate where
  estimated_input_tokens : ℕ
  estimated_output_tokens : ℕ
  estimated_cost : ℚ
  estimated_time : ℚ
  quality_expectation : ℚ
  confidence : ℚ
deriving DecidableEq

/-- The request dictionary as consumed by the cost optimizer: the keys read
by estimate and allocation functions (keywords, data_type, context,
quantity, quality_threshold). -/
structure CostRequest where
  keywords : List String
  data_type : String
  context : String
  quantity : ℕ
  quality_threshold : ℚ
deriving DecidableEq

/-- Embeds IntelligentCostOptimizer._estimate_input_tokens:
100 base tokens + 5 per keyword + len(str(context)) // 4. -/
def estimate_input_tokens (req : CostRequest) : ℕ :=
  100 + req.keywords.length * 5 + req.context.length / 4

/-- The per-item token table of _estimate_output_tokens, default 75. -/
def tokens_per_item (data_type : String) : ℕ :=
  if data_type = "qa" then 50
  else if data_type = "classification" then 20
  else if data_type = "generation" then 100
  else if data_type = "code" then 150
  else if data_type = "translation" then 80
  else 75

/-- Embeds IntelligentCostOptimizer._estimate_output_tokens. -/
def estimate_output_tokens (req : CostRequest) : ℕ :=
  tokens_per_item req.data_type * req.quantity

/-- The model_profiles dict, embedded as an association list in insertion
order (keys assumed distinct, as register_model_profile keys by
provider_model). -/
def ProfileMap : Type := List (String × ModelCostProfile)

/-- Python dict lookup on the association list. -/
def profileLookup (profiles : ProfileMap) (key : String) :
    Option ModelCostProfile :=
  (List.find? (fun kv => kv.1 = key) profiles).map Prod.snd

/-- Embeds IntelligentCostOptimizer.estimate_generation_cost. Raises
ValueError for an unknown model key and ZeroDivisionError when the
profile has speed_rating zero (estimated_time = quantity / speed_rating). -/
def estimate_generation_cost (profiles : ProfileMap) (req : CostRequest)
    (model_key : String) : Except String GenerationCostEstimate :=
  match profileLookup profiles model_key with
  | none => Except.error "ValueError: Unknown model"
  | some profile =>
    let input_tokens := estimate_input_tokens req
    let output_tokens := estimate_output_tokens req
    let input_cost := ((input_tokens : ℚ) / 1000) * profile.input_cost_per_token
    let output_cost := ((output_tokens : ℚ) / 1000) * profile.output_cost_per_token
    if profile.speed_rating = 0 then
      Except.error "ZeroDivisionError"
    else
      Except.ok
        { estimated_input_tokens := input_tokens
          estimated_output_tokens := output_tokens
          estimated_cost := input_cost + output_cost
          estimated_time := (req.quantity : ℚ) / profile.speed_rating
          quality_expectation := profile.quality_rating
          confidence := profile.reliability_rating }

/-- Python max with a key function: iterates left to right, keeps the
first element attaining the maximum (replaces only on strictly greater). -/
def pyMaxBy (f : ModelCostProfile → ℚ) (x : String × ModelCostProfile)
    (l : ProfileMap) : String × ModelCostProfile :=
  l.foldl (fun best kv => if f kv.2 > f best.2 then kv else best) x

/-- Python min with a key function: keeps the first element attaining the
minimum (replaces only on strictly smaller). -/
def pyMinBy (f : ModelCostProfile → ℚ) (x : String × ModelCostProfile)
    (l : ProfileMap) : String × ModelCostProfile :=
  l.foldl (fun best kv => if f kv.2 < f best.2 then kv else best) x

/-- Embeds IntelligentCostOptimizer._select_best_teacher_model: keys whose
quality_rating exceeds 0.8, maximized by quality_rating; falls back to the
first registered key, raising IndexError when no profile is registered. -/
def select_best_teacher_model (profiles : ProfileMap) : Except String String :=
  match profiles.filter (fun kv => kv.2.quality_rating > 4/5) with
  | [] =>
    match profiles with
    | [] => Except.error "IndexError"
    | kv :: _ => Except.ok kv.1
  | t :: ts => Except.ok (pyMaxBy (fun p => p.quality_rating) t ts).1

/-- Embeds IntelligentCostOptimizer._select_best_student_model: keys whose
input_cost_per_token is below 0.01, minimized by input_cost_per_token;
falls back to the first registered key, raising IndexError when no profile
is registered. -/
def select_best_student_model (profiles : ProfileMap) : Except String String :=
  match profiles.filter (fun kv => kv.2.input_cost_per_token < 1/100) with
  | [] =>
    match profiles with
    | [] => Except.error "IndexError"
    | kv :: _ => Except.ok kv.1
  | s :: ss => Except.ok (pyMinBy (fun p => p.input_cost_per_token) s ss).1

/-- The allocation record built by optimize_teacher_student_allocation. -/
structure Allocation where
  teacher_model : String
  student_model : String
  teacher_quantity : ℕ
  student_quantity : ℕ
  teacher_cost : ℚ
  student_cost : ℚ
  total_cost : ℚ
  expected_quality : ℚ
  teacher_ratio : ℚ
  efficiency_score : ℚ
deriving DecidableEq

/-- The two possible normal returns of optimize_teacher_student_allocation:
a best allocation, or the error dictionary reporting that no allocation is
viable. -/
inductive AllocationOutcome where
  | found (a : Allocation)
  | noViable
deriving DecidableEq

/-- The teacher-ratio candidates scanned by the allocation loop. The source
iterates np.arange(0.05, 0.5, 0.05), whose stop bound is exclusive and
which yields exactly the nine values 0.05, 0.10, ..., 0.45 (each a float
within an ulp of the rational shown; the rounding slack never crosses an
integer boundary in the int truncations below, so the rational idealization
is exact for the quantities involved). -/
def allocCandidates : List ℚ :=
  (List.range 9).map (fun i : ℕ => ((i : ℚ) + 1) / 20)

/-- The pure tail of one allocation-scan iteration, after the two cost
estimates are in hand: the budget and quality-threshold filters and the
candidate score. Returns none when the candidate is filtered out; raises
ZeroDivisionError when a surviving candidate has total cost zero
(efficiency = expected_quality / total_cost). -/
def evalCandidateCore (req : CostRequest) (budget : CostBudget)
    (teacher_model student_model : String) (r : ℚ) (tq sq : ℕ)
    (te se : GenerationCostEstimate) :
    Except String (Option (ℚ × Allocation)) :=
  let total_cost := te.estimated_cost + se.estimated_cost
  if total_cost > budget.total_budget then
    Except.ok none
  else
    let expected_quality := te.quality_expectation * r +
      se.quality_expectation * (1 - r)
    if expected_quality < req.quality_threshold then
      Except.ok none
    else if total_cost = 0 then
      Except.error "ZeroDivisionError"
    else
      let efficiency := expected_quality / total_cost
      let score := efficiency * (1 - |r - 1/5|)
      Except.ok (some (score,
        { teacher_model := teacher_model
          student_model := student_model
          teacher_quantity := tq
          student_quantity := sq
          teacher_cost := te.estimated_cost
          student_cost := se.estimated_cost
          total_cost := total_cost
          expected_quality := expected_quality
          teacher_ratio := r
          efficiency_score := efficiency }))

/-- One iteration of the allocation scan for a given teacher ratio:
teacher and student quantities from the split, their cost estimates, then
the filters and scoring of the core. -/
def evalCandidate (profiles : ProfileMap) (req : CostRequest)
    (budget : CostBudget) (teacher_model student_model : String) (r : ℚ) :
    Except String (Option (ℚ × Allocation)) := do
  let teacher_quantity := Int.toNat ⌊(req.quantity : ℚ) * r⌋
  let student_quantity := req.quantity - teacher_quantity
  let teacher_estimate ← estimate_generation_cost profiles
    { req with quantity := teacher_quantity } teacher_model
  let student_estimate ← estimate_generation_cost profiles
    { req with quantity := student_quantity } student_model
  evalCandidateCore req budget teacher_model student_model r
    teacher_quantity student_quantity teacher_estimate student_estimate

/-- The best-allocation fold of the scan loop: best_score starts at -1 and
a candidate replaces the best only on a strictly greater score. -/
def allocFold (profiles : ProfileMap) (req : CostRequest) (budget : CostBudget)
    (teacher_model student_model : String) :
    List ℚ → ℚ → Option Allocation → Except String (Option Allocation)
  | [], _, best => Except.ok best
  | r :: rs, bestScore, best => do
    let c ← evalCandidate profiles req budget teacher_model student_model r
    match c with
    | none => allocFold profiles req budget teacher_model student_model rs bestScore best
    | some (score, alloc) =>
      if score > bestScore then
        allocFold profiles req budget teacher_model student_model rs score (some alloc)
      else
        allocFold profiles req budget teacher_model student_model rs bestScore best

/-- Embeds IntelligentCostOptimizer.optimize_teacher_student_allocation.
The teacher and student model selections do not depend on the loop
variable and are hoisted out of the scan (the source recomputes the same
values each iteration). -/
def optimize_teacher_student_allocation (profiles : ProfileMap)
    (req : CostRequest) (budget : CostBudget) :
    Except String AllocationOutcome := do
  let teacher_model ← select_best_teacher_model profiles
  let student_model ← select_best_student_model profiles
  let best ← allocFold profiles req budget teacher_model student_model
    allocCandidates (-1) none
  match best with
  | some a => return AllocationOutcome.found a
  | none => return AllocationOutcome.noViable

/- ===================================================================
   BudgetTracker (src/backend/distillation/cost_optimizer.py)
   =================================================================== -/

/-- BudgetTracker state. The Python daily_spending and hourly_spending
defaultdict(float) maps are embedded as total functions from key strings
to amounts, with absent keys reading as 0 (this also makes the implicit
zero-entry insertion performed by defaultdict getitem on a missing key
semantically invisible, as it is to every observer of the tracker). -/
structure BTState where
  total_spending : ℚ
  daily_spending : String → ℚ
  hourly_spending : String → ℚ

/-- A timestamp abstracted to the two strftime projections the tracker
uses: the date key and the hour key. -/
structure DayHour where
  dateKey : String
  hourKey : String

/-- Embeds BudgetTracker.track_spending. -/
def track_spending (s : BTState) (amount : ℚ) (t : DayHour) : BTState :=
  { total_spending := s.total_spending + amount
    daily_spending := fun k =>
      if k = t.dateKey then s.daily_spending k + amount else s.daily_spending k
    hourly_spending := fun k =>
      if k = t.hourKey then s.hourly_spending k + amount else s.hourly_spending k }

/-- One entry of the issues list built by check_budget_constraints. -/
structure BudgetIssue where
  issue_type : String
  current : ℚ
  limit : ℚ
  additional : ℚ
deriving DecidableEq

/-- The dictionary returned by check_budget_constraints. -/
structure BudgetCheckResult where
  within_budget : Bool
  issues : List BudgetIssue
  remaining_total : ℚ
  utilization : ℚ
deriving DecidableEq

/-- The total-ceiling check of check_budget_constraints. -/
def totalIssueList (s : BTState) (budget : CostBudget)
    (additional_cost : ℚ) : List BudgetIssue :=
  if s.total_spending + additional_cost > budget.total_budget then
    [{ issue_type := "total_budget_exceeded", current := s.total_spending,
       limit := budget.total_budget, additional := additional_cost }]
  else []

/-- The daily-ceiling check. The ceiling is guarded by Python truthiness
of the Optional field: a ceiling that is None, and also a ceiling that is
exactly 0, skips the check. -/
def dailyIssueList (s : BTState) (budget : CostBudget)
    (additional_cost : ℚ) (now : DayHour) : List BudgetIssue :=
  match budget.daily_budget with
  | none => []
  | some d =>
    if d = 0 then []
    else if s.daily_spending now.dateKey + additional_cost > d then
      [{ issue_type := "daily_budget_exceeded",
         current := s.daily_spending now.dateKey,
         limit := d, additional := additional_cost }]
    else []

/-- The hourly-ceiling check, with the same truthiness guard. -/
def hourlyIssueList (s : BTState) (budget : CostBudget)
    (additional_cost : ℚ) (now : DayHour) : List BudgetIssue :=
  match budget.hourly_budget with
  | none => []
  | some h =>
    if h = 0 then []
    else if s.hourly_spending now.hourKey + additional_cost > h then
      [{ issue_type := "hourly_budget_exceeded",
         current := s.hourly_spending now.hourKey,
         limit := h, additional := additional_cost }]
    else []

/-- The issues list of check_budget_constraints: the three independent
ceiling checks in source order. -/
def budgetIssues (s : BTState) (budget : CostBudget) (additional_cost : ℚ)
    (now : DayHour) : List BudgetIssue :=
  totalIssueList s budget additional_cost ++
    dailyIssueList s budget additional_cost now ++
    hourlyIssueList s budget additional_cost now

/-- Embeds BudgetTracker.check_budget_constraints. The returned dictionary
computes utilization = total_spending / budget.total_budget
unconditionally, so a zero total budget raises ZeroDivisionError. -/
def check_budget_constraints (s : BTState) (budget : CostBudget)
    (additional_cost : ℚ) (now : DayHour) :
    Except String BudgetCheckResult :=
  let issues := budgetIssues s budget additional_cost now
  if budget.total_budget = 0 then
    Except.error "ZeroDivisionError"
  else
    Except.ok
      { within_budget := issues.isEmpty
        issues := issues
        remaining_total := budget.total_budget - s.total_spending
        utilization := s.total_spending / budget.total_budget }

/-- The check method as a state transformer: its body contains no
assignment to tracker state, so it returns the incoming state unchanged
(defaultdict reads are lookups in the total-function embedding). -/
def runCheckBudget (s : BTState) (budget : CostBudget) (additional_cost : ℚ)
    (now : DayHour) : Except String BudgetCheckResult × BTState :=
  (check_budget_constraints s budget additional_cost now, s)

/- ===================================================================
   RateLimiter (src/distillation/providers.py)
   =================================================================== -/

/-- RateLimiter state: the configured per-minute limit and the recorded
request timestamps in append order (time.time values as rationals). -/
structure RLState where
  requests_per_minute : ℕ
  request_times : List ℚ
deriving DecidableEq

/-- The list comprehension discarding timestamps at or before the cutoff. -/
def pruneTimes (l : List ℚ) (cutoff : ℚ) : List ℚ :=
  l.filter (fun t => cutoff < t)

/-- Embeds RateLimiter.wait_if_needed as a step function from the current
clock value to a suspension flag and the new state. The asyncio.sleep is
idealized as waking exactly after the computed wait (the source re-reads
the clock after sleeping and re-prunes with it). Indexing request_times[0]
on an empty list (reachable only with a zero limit) raises IndexError. -/
def wait_if_needed (s : RLState) (now : ℚ) : Except String (Bool × RLState) :=
  let pruned := pruneTimes s.request_times (now - 60)
  if pruned.length ≥ s.requests_per_minute then
    match pruned with
    | [] => Except.error "IndexError"
    | t0 :: rest =>
      let wait := 60 - (now - t0)
      if 0 < wait then
        let now2 := now + wait
        let pruned2 := pruneTimes (t0 :: rest) (now2 - 60)
        Except.ok (true,
          { requests_per_minute := s.requests_per_minute,
            request_times := pruned2 ++ [now2] })
      else
        Except.ok (false,
          { requests_per_minute := s.requests_per_minute,
            request_times := (t0 :: rest) ++ [now] })
  else
    Except.ok (false,
      { requests_per_minute := s.requests_per_minute,
        request_times := pruned ++ [now] })

/-- A sequence of wait_if_needed calls by a single caller at the given
clock values, counting how many of them suspended. -/
def runCalls (s : RLState) : List ℚ → Except String (ℕ × RLState)
  | [] => Except.ok (0, s)
  | t :: ts => do
    let br ← wait_if_needed s t
    let res ← runCalls br.2 ts
    Except.ok ((if br.1 then 1 else 0) + res.1, res.2)

/- ===================================================================
   src/distillation/core.py
   =================================================================== -/

/-- GenerationRequest dataclass (the strategy tag is not read by any of
the embedded code paths and is omitted). -/
structure GenerationRequest where
  keywords : List String
  data_type : String
  quantity : ℕ
  quality_threshold : ℚ
deriving DecidableEq

/-- The dictionary returned by a provider generate call, restricted to the
keys the pipeline reads, with the .get defaults already applied. -/
structure ProviderResponse where
  content : String
  confidence : ℚ
  tokens_used : ℤ
deriving DecidableEq

/-- TeacherExample dataclass (the datetime field is not read by any
embedded code path and is omitted; the context map holds the request
keywords and the iteration index). -/
structure TeacherExample where
  input : String
  output : String
  confidence : ℚ
  tokens_used : ℤ
  model : String
  context_keywords : List String
  iteration : ℕ
deriving DecidableEq

/-- Embeds TeacherModel._create_seed_prompt (only the parts that vary:
the full f-string template is abbreviated to its varying components). -/
def create_seed_prompt (req : GenerationRequest) (iteration : ℕ) : String :=
  "Generate high-quality " ++ req.data_type ++ " data based on keywords: "
    ++ String.intercalate ", " req.keywords
    ++ " Variation #" ++ toString (iteration + 1)

/-- The seed count of TeacherModel.generate_seed_data:
min(request.quantity // 10, 50). -/
def seedQuantity (req : GenerationRequest) : ℕ :=
  min (req.quantity / 10) 50

/-- Embeds TeacherModel.generate_seed_data. The provider calls are
abstracted by an oracle from the iteration index to the call result
(none models a raised exception, which the source logs and skips). -/
def generate_seed_data (req : GenerationRequest) (model_name : String)
    (oracle : ℕ → Option ProviderResponse) : List TeacherExample :=
  (List.range (seedQuantity req)).filterMap fun i =>
    (oracle i).map fun r =>
      { input := create_seed_prompt req i
        output := r.content
        confidence := r.confidence
        tokens_used := r.tokens_used
        model := model_name
        context_keywords := req.keywords
        iteration := i }

/-- An item of the student bulk-generation output. -/
structure StudentItem where
  content : String
  quality_estimate : ℚ
  model : String
deriving DecidableEq

/-- The result dictionary of StudentModel.learn_from_teacher: the patterns
dict always holds the four fixed categories, and the confidence is the
fixed 0.75 placeholder of _calculate_learning_confidence. -/
structure LearningResult where
  patterns_learned : ℕ
  examples_processed : ℕ
  confidence : ℚ
deriving DecidableEq

/-- Embeds StudentModel.learn_from_teacher (observable result only: the
learned-pattern map it merges holds fixed placeholder markers). -/
def learn_from_teacher (teacher_examples : List TeacherExample) :
    LearningResult :=
  { patterns_learned := 4
    examples_processed := teacher_examples.length
    confidence := 3/4 }

/-- Embeds StudentModel.generate_bulk_data. The source issues quantity
calls in sequential batches of twenty, gathers each batch, and drops
failed calls; the oracle abstracts the call for iteration index i, and
the per-item quality estimate is the confidence field of the response
(_estimate_quality). Within-batch completion order is idealized as issue
order (no embedded property depends on item order). -/
def generate_bulk_data (req : GenerationRequest) (model_name : String)
    (oracle : ℕ → Option ProviderResponse) : List StudentItem :=
  (List.range req.quantity).filterMap fun i =>
    (oracle i).map fun r =>
      { content := r.content
        quality_estimate := r.confidence
        model := model_name }

/-- Parses the stripped content of a validation response the way
float(score_text) succeeds on a text that passes the
score_text.replace(dot, empty).isdigit() guard: ASCII digits with at most
one dot. Returns none when the guard fails or float() raises (either way
the source scores the item 0.5). -/
def pyParseScore (t : String) : Option ℚ :=
  let digitsOnly := (t.toList.filter (fun c => c ≠ '.'))
  if digitsOnly ≠ [] ∧ digitsOnly.all Char.isDigit then
    match t.splitOn "." with
    | [intPart] => some ((intPart.toNat?.getD 0 : ℚ))
    | [intPart, fracPart] =>
      some ((intPart.toNat?.getD 0 : ℚ) +
        (fracPart.toNat?.getD 0 : ℚ) / (10 ^ fracPart.length : ℕ))
    | _ => none
  else none

/-- The outcome of the single teacher validation call for one sampled
item: none models a raised exception, some c a response with content c. -/
def ValidationOracle : Type := ℕ → Option String

/-- Embeds QualityValidator._validate_single: 0.5 on call failure, 0.5 on
parse failure, otherwise the parsed score clamped into the unit interval
by max(0.0, min(1.0, score)). -/
def validationScore (outcome : Option String) : ℚ :=
  match outcome with
  | none => 1/2
  | some content =>
    match pyParseScore content.trim with
    | none => 1/2
    | some q => max 0 (min 1 q)

/-- The dictionary returned by QualityValidator.validate_batch, with the
validations list reduced to the per-sample quality scores. -/
structure ValidationResult where
  average_quality : ℚ
  sample_size : ℕ
  validations : List ℚ
  meets_threshold : Bool
deriving DecidableEq

/-- The sample size of validate_batch: max(1, int(len(data) * ratio)). -/
def sampleSize (n : ℕ) (ratio : ℚ) : ℕ :=
  max 1 (Int.toNat ⌊(n : ℚ) * ratio⌋)

/-- Python range(0, stop, step) for a positive step. -/
def pyRange (stop step : ℕ) : List ℕ :=
  (List.range ((stop + step - 1) / step)).map (fun j => j * step)

/-- The sampled indices of validate_batch:
list(range(0, len(data), len(data) // sample_size))[:sample_size]. -/
def sampleIndices (n s : ℕ) : List ℕ :=
  (pyRange n (n / s)).take s

/-- The scores of the sampled items, through the validation oracle. -/
def sampledScores (n : ℕ) (ratio : ℚ) (oracle : ValidationOracle) : List ℚ :=
  (sampleIndices n (sampleSize n ratio)).map fun i => validationScore (oracle i)

/-- Embeds QualityValidator.validate_batch. When len(data) // sample_size
is zero (in particular on an empty data list, where sample_size is
max(1, 0) = 1), the source evaluates range(0, 0, 0) and raises
ValueError: range() arg 3 must not be zero. The average divides by
len(validations), which is positive on every path that reaches it. -/
def validate_batch (data : List StudentItem) (sample_ratio : ℚ)
    (oracle : ValidationOracle) : Except String ValidationResult :=
  let n := data.length
  let s := sampleSize n sample_ratio
  if n / s = 0 then
    Except.error "ValueError: range arg 3 must not be zero"
  else
    let scores := sampledScores n sample_ratio oracle
    let avg := scores.sum / (scores.length : ℚ)
    Except.ok
      { average_quality := avg
        sample_size := scores.length
        validations := scores
        meets_threshold := decide (avg ≥ 4/5) }

/-- One item of the aggregated response data list. -/
structure DataItem where
  content : String
  source : String
  quality : ℚ
deriving DecidableEq

/-- GenerationResponse dataclass, with the metadata dictionary flattened
into fields (the uuid and wall-clock fields are not algorithmic and are
omitted). -/
structure GenerationResponse where
  data : List DataItem
  quality_score : ℚ
  cost : ℚ
  model_used : String
  teacher_examples : ℕ
  student_generated : ℕ
  learning_confidence : ℚ
  validation_sample_size : ℕ
  meets_quality_threshold : Bool
deriving DecidableEq

/-- Embeds KnowledgeDistillationOrchestrator._calculate_total_cost:
sum of tokens_used times the 0.01 placeholder rate over the teacher
examples, plus 0.001 per student item. -/
def calculate_total_cost (teacher_examples : List TeacherExample)
    (student_data : List StudentItem) : ℚ :=
  (teacher_examples.map (fun ex => (ex.tokens_used : ℚ) * (1/100))).sum +
    (student_data.length : ℚ) * (1/1000)

/-- Embeds KnowledgeDistillationOrchestrator.generate_dataset: seeding,
learning, bulk generation, validation at the default 0.1 sample ratio,
cost aggregation and response assembly. The three oracles abstract the
teacher seed calls, the student bulk calls and the validation calls. -/
def generate_dataset (req : GenerationRequest)
    (teacher_name student_name : String)
    (teacherOracle studentOracle : ℕ → Option ProviderResponse)
    (validationOracle : ValidationOracle) :
    Except String GenerationResponse := do
  let teacher_examples := generate_seed_data req teacher_name teacherOracle
  let learning_result := learn_from_teacher teacher_examples
  let student_data := generate_bulk_data req student_name studentOracle
  let validation_result ← validate_batch student_data (1/10) validationOracle
  let total_cost := calculate_total_cost teacher_examples student_data
  let all_data :=
    (teacher_examples.map fun ex =>
      { content := ex.output, source := "teacher", quality := ex.confidence }) ++
    (student_data.map fun item =>
      { content := item.content, source := "student",
        quality := item.quality_estimate })
  return {
      data := all_data
      quality_score := validation_result.average_quality
      cost := total_cost
      model_used := teacher_name ++ " + " ++ student_name
      teacher_examples := teacher_examples.length
      student_generated := student_data.length
      learning_confidence := learning_result.confidence
      validation_sample_size := validation_result.sample_size
      meets_quality_threshold := validation_result.meets_threshold }

/- ===================================================================
   PatternExtractor (src/distillation/transfer.py)
   =================================================================== -/

/-- KnowledgePattern dataclass (the datetime field is not read by any
embedded code path and is omitted). -/
structure KnowledgePattern where
  pattern_id : String
  pattern_type : String
  keywords : List String
  template : String
  examples : List String
  confidence : ℚ
  frequency : ℕ
deriving DecidableEq

/-- Classifies one stripped line for _get_structure_signature, following
the elif chain of the source. -/
def classifyLine (line : String) : String :=
  if line.startsWith "#" then "HEADER"
  else if line.startsWith "-" || line.startsWith "*" then "LIST"
  else if line.startsWith "1." || line.startsWith "2." || line.startsWith "3." then
    "NUMBERED"
  else if line.endsWith ":" then "LABEL"
  else if line.contains '?' then "QUESTION"
  else "TEXT"

/-- Embeds PatternExtractor._get_structure_signature: strips each line,
skips empty lines, classifies the rest, keeps the first ten tokens and
joins them with underscores. -/
def structureSignature (text : String) : String :=
  let tokens := ((text.splitOn "\n").map String.trim).filterMap fun line =>
    if line = "" then none else some (classifyLine line)
  String.intercalate "_" (tokens.take 10)

/-- Keys of a grouping in first-occurrence order, matching the iteration
order of a Python defaultdict populated in a single pass. -/
def keysInOrder (keys : List String) : List String :=
  keys.foldl (fun acc k => if k ∈ acc then acc else acc ++ [k]) []

/-- Groups a list by a string key, keys in first-occurrence order, each
group in original element order. -/
def groupsBy (key : TeacherExample → String) (l : List TeacherExample) :
    List (String × List TeacherExample) :=
  (keysInOrder (l.map key)).map fun k => (k, l.filter fun x => key x = k)

/-- Stable insertion for a descending sort by count: an element passes
items with a strictly larger count and lands before equal counts that
occur later, matching the stable Python sorted with reverse=True. -/
def insertCountDesc (x : String × ℕ) :
    List (String × ℕ) → List (String × ℕ)
  | [] => [x]
  | y :: ys => if y.2 > x.2 then y :: insertCountDesc x ys else x :: y :: ys

/-- Stable descending sort by count. -/
def sortCountDesc : List (String × ℕ) → List (String × ℕ)
  | [] => []
  | x :: xs => insertCountDesc x (sortCountDesc xs)

/-- Embeds PatternExtractor._extract_common_keywords: concatenates the
context keywords of the group, counts occurrences (keys in
first-occurrence order), sorts descending by count and keeps the first
five keys. -/
def extract_common_keywords (group : List TeacherExample) : List String :=
  let all_keywords := group.flatMap (fun ex => ex.context_keywords)
  let counted := (keysInOrder all_keywords).map fun k =>
    (k, (all_keywords.filter (fun w => w = k)).length)
  ((sortCountDesc counted).take 5).map Prod.fst

/-- The structural-pattern confidence formula of the source:
min(1.0, len(group) / 10). -/
def structConfidence (groupSize : ℕ) : ℚ :=
  min 1 ((groupSize : ℚ) / 10)

/-- The content-pattern confidence formula: min(1.0, len(group) / 8). -/
def contentConfidence (groupSize : ℕ) : ℚ :=
  min 1 ((groupSize : ℚ) / 8)

/-- The style-pattern confidence formula: min(1.0, len(group) / 15). -/
def styleConfidence (groupSize : ℕ) : ℚ :=
  min 1 ((groupSize : ℚ) / 15)

/-- Embeds PatternExtractor._extract_structural_patterns: groups by the
structure signature of the output, keeps groups of at least two and
builds one pattern per group. The md5 hex digest prefix of the pattern id
is abstracted as the raw group key (the id string is read by no embedded
code path). -/
def extract_structural_patterns (examples : List TeacherExample) :
    List KnowledgePattern :=
  (groupsBy (fun ex => structureSignature ex.output) examples).filterMap
    fun kg =>
      if kg.2.length ≥ 2 then
        some
          { pattern_id := "struct_" ++ kg.1
            pattern_type := "structure"
            keywords := extract_common_keywords kg.2
            template := "Structure template based on " ++
              toString kg.2.length ++ " examples"
            examples := (kg.2.take 3).map (fun ex => ex.output)
            confidence := structConfidence kg.2.length
            frequency := kg.2.length }
      else none

/-- Embeds PatternExtractor._extract_style_patterns, with the numeric
feature computation and _classify_style abstracted as a classifier from
the output text to a style key (the features are built from the output
alone and only the resulting key determines grouping): groups of at least
three become a pattern. -/
def extract_style_patterns (styleOf : String → String)
    (examples : List TeacherExample) : List KnowledgePattern :=
  (groupsBy (fun ex => styleOf ex.output) examples).filterMap
    fun kg =>
      if kg.2.length ≥ 3 then
        some
          { pattern_id := "style_" ++ kg.1
            pattern_type := "style"
            keywords := extract_common_keywords kg.2
            template := "Style template for " ++
              toString kg.2.length ++ " examples"
            examples := (kg.2.take 3).map (fun ex => ex.output)
            confidence := styleConfidence kg.2.length
            frequency := kg.2.length }
      else none

/-- Python sorted on strings, embedded as a stable insertion sort under
the lexicographic order. -/
def insertStrAsc (x : String) : List String → List String
  | [] => [x]
  | y :: ys => if x < y then x :: y :: ys else y :: insertStrAsc x ys

/-- Stable ascending string sort. -/
def sortStrAsc : List String → List String
  | [] => []
  | x :: xs => insertStrAsc x (sortStrAsc xs)

/-- Embeds PatternExtractor._extract_content_patterns: examples with a
non-empty context keyword list are grouped by the underscore join of
their sorted keywords; groups of at least two become a pattern whose
keyword list is the group key split back on underscores. -/
def extract_content_patterns (examples : List TeacherExample) :
    List KnowledgePattern :=
  let withKeywords := examples.filter fun ex => ex.context_keywords ≠ []
  (groupsBy (fun ex => String.intercalate "_" (sortStrAsc ex.context_keywords))
      withKeywords).filterMap
    fun kg =>
      if kg.2.length ≥ 2 then
        some
          { pattern_id := "content_" ++ kg.1
            pattern_type := "content"
            keywords := kg.1.splitOn "_"
            template := "Content template for topic with " ++
              toString kg.2.length ++ " examples"
            examples := (kg.2.take 3).map (fun ex => ex.output)
            confidence := contentConfidence kg.2.length
            frequency := kg.2.length }
      else none

/-- Embeds PatternExtractor._detect_format_type. -/
def detect_format_type (text : String) : Option String :=
  let text_lower := text.toLower.trim
  if text_lower.startsWith "\x7b" && text_lower.endsWith "\x7d" then some "json"
  else if text_lower.startsWith "[" && text_lower.endsWith "]" then some "list"
  else if text.contains '|' && text.contains '\n' then some "table"
  else if (text.toList.filter (fun c => c = '\n')).length > 5 &&
      ((text.splitOn "\n").any fun line =>
        line.trim.startsWith "-" || line.trim.startsWith "*") then
    some "bullet_list"
  else none

/-- Embeds PatternExtractor._extract_format_patterns: examples with a
detected format are grouped by it; groups of at least two become a
pattern with the fixed confidence 0.9. -/
def extract_format_patterns (examples : List TeacherExample) :
    List KnowledgePattern :=
  let withFormat := examples.filter fun ex =>
    (detect_format_type ex.output).isSome
  (groupsBy (fun ex => (detect_format_type ex.output).getD "") withFormat).filterMap
    fun kg =>
      if kg.2.length ≥ 2 then
        some
          { pattern_id := "format_" ++ kg.1
            pattern_type := "format"
            keywords := extract_common_keywords kg.2
            template := kg.1 ++ " format template from " ++
              toString kg.2.length ++ " examples"
            examples := (kg.2.take 2).map (fun ex => ex.output)
            confidence := 9/10
            frequency := kg.2.length }
      else none

/-- Embeds PatternExtractor.extract_patterns: the four extraction passes
in source order. -/
def extract_patterns (styleOf : String → String)
    (examples : List TeacherExample) : List KnowledgePattern :=
  extract_structural_patterns examples ++
    extract_style_patterns styleOf examples ++
    extract_content_patterns examples ++
    extract_format_patterns examples

/- ===================================================================
   Shared helper lemmas
   =================================================================== -/

/-- A filterMap over a list where the function is total on the list keeps
every element. -/
theorem length_filterMap_of_isSome {α β : Type} (l : List α) (f : α → Option β)
    (h : ∀ a ∈ l, (f a).isSome) : (l.filterMap f).length = l.length := by
  induction l with
  | nil => rfl
  | cons x xs ih =>
    have hx := h x (List.mem_cons_self x xs)
    cases hfx : f x with
    | none => rw [hfx] at hx; simp at hx
    | some b =>
      simp only [List.filterMap_cons, hfx, List.length_cons]
      rw [ih (fun a ha => h a (List.mem_cons_of_mem x ha))]

/-- Every pattern of the structural extraction pass has type structure,
the structural confidence of its frequency, and frequency at least two. -/
theorem mem_extract_structural {examples : List TeacherExample}
    {p : KnowledgePattern} (h : p ∈ extract_structural_patterns examples) :
    p.pattern_type = "structure" ∧ p.confidence = structConfidence p.frequency ∧
      2 ≤ p.frequency := by
  unfold extract_structural_patterns at h
  rw [List.mem_filterMap] at h
  obtain ⟨kg, _, hsome⟩ := h
  by_cases hlen : kg.2.length ≥ 2
  · simp only [hlen, if_pos, ge_iff_le, Option.some.injEq] at hsome
    subst hsome
    exact ⟨rfl, rfl, hlen⟩
  · simp [hlen] at hsome

/-- Every pattern of the style extraction pass has type style, the style
confidence of its frequency, and frequency at least three. -/
theorem mem_extract_style {styleOf : String → String}
    {examples : List TeacherExample} {p : KnowledgePattern}
    (h : p ∈ extract_style_patterns styleOf examples) :
    p.pattern_type = "style" ∧ p.confidence = styleConfidence p.frequency ∧
      3 ≤ p.frequency := by
  unfold extract_style_patterns at h
  rw [List.mem_filterMap] at h
  obtain ⟨kg, _, hsome⟩ := h
  by_cases hlen : kg.2.length ≥ 3
  · simp only [hlen, if_pos, ge_iff_le, Option.some.injEq] at hsome
    subst hsome
    exact ⟨rfl, rfl, hlen⟩
  · simp [hlen] at hsome

/-- Every pattern of the content extraction pass has type content, the
content confidence of its frequency, and frequency at least two. -/
theorem mem_extract_content {examples : List TeacherExample}
    {p : KnowledgePattern} (h : p ∈ extract_content_patterns examples) :
    p.pattern_type = "content" ∧ p.confidence = contentConfidence p.frequency ∧
      2 ≤ p.frequency := by
  unfold extract_content_patterns at h
  rw [List.mem_filterMap] at h
  obtain ⟨kg, _, hsome⟩ := h
  by_cases hlen : kg.2.length ≥ 2
  · simp only [hlen, if_pos, ge_iff_le, Option.some.injEq] at hsome
    subst hsome
    exact ⟨rfl, rfl, hlen⟩
  · simp [hlen] at hsome

/-- Every pattern of the format extraction pass has type format, the
fixed confidence 0.9, and frequency at least two. -/
theorem mem_extract_format {examples : List TeacherExample}
    {p : KnowledgePattern} (h : p ∈ extract_format_patterns examples) :
    p.pattern_type = "format" ∧ p.confidence = 9/10 ∧ 2 ≤ p.frequency := by
  unfold extract_format_patterns at h
  rw [List.mem_filterMap] at h
  obtain ⟨kg, _, hsome⟩ := h
  by_cases hlen : kg.2.length ≥ 2
  · simp only [hlen, if_pos, ge_iff_le, Option.some.injEq] at hsome
    subst hsome
    exact ⟨rfl, rfl, hlen⟩
  · simp [hlen] at hsome

/- ===================================================================
   Concrete instances used by counterexamples and witnesses
   =================================================================== -/

/-- A fresh budget tracker: nothing spent. -/
def btStateZero : BTState :=
  { total_spending := 0, daily_spending := fun _ => 0,
    hourly_spending := fun _ => 0 }

/-- A sample timestamp projection. -/
def dayHourSample : DayHour :=
  { dateKey := "2026-10-12", hourKey := "2026-10-12 10" }

/-- A budget whose daily ceiling is configured as exactly zero. -/
def budgetZeroDaily : CostBudget :=
  { total_budget := 100, daily_budget := some 0, hourly_budget := none,
    cost_per_item_limit := none, quality_cost_ratio_min := 1 }

/-- A request used by concrete evaluations. -/
def reqSample (q : ℕ) : GenerationRequest :=
  { keywords := ["AI"], data_type := "qa", quantity := q,
    quality_threshold := 4/5 }

/- ===================================================================
   Claim theorems
   =================================================================== -/

/-- C10: check_budget_constraints divides total spending by
budget.total_budget unconditionally, so it returns a result exactly when
total_budget is nonzero and raises ZeroDivisionError exactly when
total_budget is zero. -/
theorem c10_check_budget_requires_nonzero_total (s : BTState)
    (budget : CostBudget) (additional_cost : ℚ) (now : DayHour) :
    ((∃ r, check_budget_constraints s budget additional_cost now = Except.ok r) ↔
      budget.total_budget ≠ 0) ∧
    (check_budget_constraints s budget additional_cost now =
        Except.error "ZeroDivisionError" ↔ budget.total_budget = 0) := by
  unfold check_budget_constraints
  by_cases h0 : budget.total_budget = 0 <;> simp [h0]

/-- C7: the budget check is side-effect-free and idempotent: as a state
transformer it returns the tracker state unchanged, a second identical
check on the resulting state returns the identical result, and only
track_spending changes the state (it adds the amount to the running total,
and with a nonzero amount the state genuinely differs). -/
theorem c7_check_pure_only_track_mutates (s : BTState) (budget : CostBudget)
    (additional_cost : ℚ) (now : DayHour) (amount : ℚ) (t : DayHour) :
    (runCheckBudget s budget additional_cost now).2 = s ∧
    (runCheckBudget ((runCheckBudget s budget additional_cost now).2)
        budget additional_cost now).1 =
      (runCheckBudget s budget additional_cost now).1 ∧
    (track_spending s amount t).total_spending = s.total_spending + amount ∧
    (amount ≠ 0 → track_spending s amount t ≠ s) := by
  refine ⟨rfl, rfl, rfl, fun ha heq => ha ?_⟩
  have htot := congrArg BTState.total_spending heq
  simpa [track_spending] using htot

/-- C7 witness: the parts with hypotheses, discharged at a fresh tracker
with amount 1. -/
theorem c7_witness :
    track_spending btStateZero 1 dayHourSample ≠ btStateZero :=
  (c7_check_pure_only_track_mutates btStateZero budgetZeroDaily 1
    dayHourSample 1 dayHourSample).2.2.2 (by norm_num)

/-- C1 counterexample: with a daily ceiling configured as exactly zero,
an additional cost of 1 exceeds that ceiling (0 + 1 > 0) yet the check
reports within budget, because the truthiness guard on the Optional daily
ceiling treats a zero value like an absent one. -/
theorem c1_counterexample :
    (check_budget_constraints btStateZero budgetZeroDaily 1
        dayHourSample).map (fun r => r.within_budget) = Except.ok true ∧
    budgetZeroDaily.daily_budget = some 0 ∧
    btStateZero.daily_spending dayHourSample.dateKey + 1 > (0 : ℚ) := by
  have hc : check_budget_constraints btStateZero budgetZeroDaily 1 dayHourSample =
      Except.ok { within_budget := true
                  issues := []
                  remaining_total := 100
                  utilization := 0 } := by
    unfold check_budget_constraints budgetIssues totalIssueList dailyIssueList
      hourlyIssueList
    norm_num [btStateZero, budgetZeroDaily]
  refine ⟨?_, rfl, by norm_num [btStateZero]⟩
  rw [hc]
  rfl

/-- C1 (amended): when the check returns a result that reports within
budget, the would-be total exceeds neither the total ceiling nor any
configured daily or hourly ceiling whose value is nonzero (a ceiling
configured as exactly zero is skipped by the truthiness guard of the
source and is excluded). -/
theorem c1_within_budget_sound (s : BTState) (budget : CostBudget)
    (additional_cost : ℚ) (now : DayHour) (r : BudgetCheckResult)
    (hok : check_budget_constraints s budget additional_cost now = Except.ok r)
    (hwb : r.within_budget = true) :
    s.total_spending + additional_cost ≤ budget.total_budget ∧
    (∀ d, budget.daily_budget = some d → d ≠ 0 →
      s.daily_spending now.dateKey + additional_cost ≤ d) ∧
    (∀ h, budget.hourly_budget = some h → h ≠ 0 →
      s.hourly_spending now.hourKey + additional_cost ≤ h) := by
  unfold check_budget_constraints at hok
  by_cases h0 : budget.total_budget = 0
  · simp [h0] at hok
  · simp only [h0, if_false, ite_false, Except.ok.injEq] at hok
    have hissues : budgetIssues s budget additional_cost now = [] := by
      have := hwb
      rw [← hok] at this
      simpa [List.isEmpty_iff] using this
    unfold budgetIssues at hissues
    rw [List.append_assoc, List.append_eq_nil, List.append_eq_nil] at hissues
    obtain ⟨htotal, hdaily, hhourly⟩ := hissues
    refine ⟨?_, ?_, ?_⟩
    · by_contra hgt
      unfold totalIssueList at htotal
      simp [lt_of_not_ge hgt] at htotal
    · intro d hd hdnz
      by_contra hgt
      unfold dailyIssueList at hdaily
      rw [hd] at hdaily
      simp [hdnz, lt_of_not_ge hgt] at hdaily
    · intro h hh hhnz
      by_contra hgt
      unfold hourlyIssueList at hhourly
      rw [hh] at hhourly
      simp [hhnz, lt_of_not_ge hgt] at hhourly

/-- A budget with total ceiling 100 and daily ceiling 50. -/
def budgetDaily50 : CostBudget :=
  { total_budget := 100, daily_budget := some 50, hourly_budget := none,
    cost_per_item_limit := none, quality_cost_ratio_min := 1 }

/-- C1 witness: the amended theorem applied at a fresh tracker, a budget
with total ceiling 100 and daily ceiling 50, and additional cost 1. -/
theorem c1_witness :
    btStateZero.total_spending + 1 ≤ budgetDaily50.total_budget ∧
    (∀ d, budgetDaily50.daily_budget = some d → d ≠ 0 →
      btStateZero.daily_spending dayHourSample.dateKey + 1 ≤ d) ∧
    (∀ h, budgetDaily50.hourly_budget = some h → h ≠ 0 →
      btStateZero.hourly_spending dayHourSample.hourKey + 1 ≤ h) :=
  c1_within_budget_sound btStateZero budgetDaily50 1 dayHourSample
    { within_budget := true
      issues := []
      remaining_total := 100
      utilization := 0 }
    (by
      unfold check_budget_constraints budgetIssues totalIssueList
        dailyIssueList hourlyIssueList
      norm_num [btStateZero, budgetDaily50])
    rfl

/-- C2 (code-bug evidence): in the pathological case where the teacher
produces zero seed examples and the student produces zero items (every
provider call fails), generate_dataset does not return a
GenerationResponse: validate_batch on the empty item list computes
sample step len(data) // sample_size = 0 // 1 = 0 and range(0, 0, 0)
raises ValueError, which propagates out of the pipeline. -/
theorem c2_pathological_case_raises :
    generate_dataset (reqSample 20) "teacher" "student"
      (fun _ => none) (fun _ => none) (fun _ => none) =
    Except.error "ValueError: range arg 3 must not be zero" := by
  have hseed : generate_seed_data (reqSample 20) "teacher"
      (fun _ => none) = [] := by
    simp [generate_seed_data]
  have hbulk : generate_bulk_data (reqSample 20) "student"
      (fun _ => none) = [] := by
    simp [generate_bulk_data]
  have hval : validate_batch ([] : List StudentItem) (1/10) (fun _ => none) =
      Except.error "ValueError: range arg 3 must not be zero" := by
    unfold validate_batch sampleSize
    norm_num
  unfold generate_dataset
  rw [hseed, hbulk]
  dsimp only
  rw [hval]
  rfl

/-- C4: generate_seed_data issues exactly min(quantity // 10, 50) teacher
calls (the seed quantity), returns at most that many examples, returns
exactly that many when every call succeeds, and the seed quantity takes
the values 0, 0, 1, 1, 50, 50 at quantities 1, 9, 10, 11, 500, 10000. -/
theorem c4_seed_count (req : GenerationRequest) (model_name : String)
    (oracle : ℕ → Option ProviderResponse) :
    seedQuantity req = min (req.quantity / 10) 50 ∧
    (generate_seed_data req model_name oracle).length ≤
      min (req.quantity / 10) 50 ∧
    ((∀ i, i < seedQuantity req → (oracle i).isSome) →
      (generate_seed_data req model_name oracle).length =
        min (req.quantity / 10) 50) ∧
    seedQuantity (reqSample 1) = 0 ∧ seedQuantity (reqSample 9) = 0 ∧
    seedQuantity (reqSample 10) = 1 ∧ seedQuantity (reqSample 11) = 1 ∧
    seedQuantity (reqSample 500) = 50 ∧
    seedQuantity (reqSample 10000) = 50 := by
  refine ⟨rfl, ?_, ?_, rfl, rfl, rfl, rfl, rfl, rfl⟩
  · have h1 : (generate_seed_data req model_name oracle).length ≤
        (List.range (seedQuantity req)).length :=
      List.length_filterMap_le _ _
    simpa [seedQuantity] using h1
  · intro hall
    unfold generate_seed_data
    rw [length_filterMap_of_isSome]
    · simp [seedQuantity]
    · intro i hi
      have := hall i (List.mem_range.mp hi)
      simpa [Option.isSome_map] using this

/-- A provider-call oracle that always succeeds. -/
def oracleConst : ℕ → Option ProviderResponse :=
  fun _ => some { content := "out", confidence := 9/10, tokens_used := 5 }

/-- C4 witness: at quantity 20 with an all-success oracle, exactly
min(20 // 10, 50) = 2 examples come back. -/
theorem c4_witness :
    (generate_seed_data (reqSample 20) "teacher" oracleConst).length =
      min (20 / 10) 50 :=
  (c4_seed_count (reqSample 20) "teacher" oracleConst).2.2.1 (fun _ _ => rfl)

/-- C9: every pattern produced by the pattern extractor carries the
confidence determined by its supporting group size (the frequency field):
min(1, n/10) for structure, min(1, n/8) for content, min(1, n/15) for
style, and the fixed 0.9 for format patterns; every confidence is bounded
by 1, the structural confidence is monotone in group size, and group
sizes 2, 10, 20 give structural confidences 0.2, 1.0, 1.0. -/
theorem c9_pattern_confidence (styleOf : String → String)
    (examples : List TeacherExample) (p : KnowledgePattern)
    (hp : p ∈ extract_patterns styleOf examples) :
    (p.pattern_type = "structure" → p.confidence = structConfidence p.frequency) ∧
    (p.pattern_type = "content" → p.confidence = contentConfidence p.frequency) ∧
    (p.pattern_type = "style" → p.confidence = styleConfidence p.frequency) ∧
    (p.pattern_type = "format" → p.confidence = 9/10) ∧
    p.confidence ≤ 1 ∧
    (∀ m n : ℕ, m ≤ n → structConfidence m ≤ structConfidence n) ∧
    structConfidence 2 = 1/5 ∧ structConfidence 10 = 1 ∧
    structConfidence 20 = 1 := by
  have hmono : ∀ m n : ℕ, m ≤ n → structConfidence m ≤ structConfidence n := by
    intro m n hmn
    unfold structConfidence
    refine min_le_min le_rfl ?_
    have hcast : (m : ℚ) ≤ (n : ℚ) := by exact_mod_cast hmn
    exact (div_le_div_iff_of_pos_right (by norm_num : (0:ℚ) < 10)).mpr hcast
  have hv2 : structConfidence 2 = 1/5 := by
    unfold structConfidence
    rw [min_def]
    norm_num
  have hv10 : structConfidence 10 = 1 := by
    unfold structConfidence
    rw [min_def]
    norm_num
  have hv20 : structConfidence 20 = 1 := by
    unfold structConfidence
    rw [min_def]
    norm_num
  unfold extract_patterns at hp
  simp only [List.mem_append] at hp
  rcases hp with ((hA | hB) | hC) | hD
  · obtain ⟨ht, hc, _⟩ := mem_extract_structural hA
    refine ⟨fun _ => hc, ?_, ?_, ?_, ?_, hmono, hv2, hv10, hv20⟩
    · intro hcon; rw [ht] at hcon; simp at hcon
    · intro hcon; rw [ht] at hcon; simp at hcon
    · intro hcon; rw [ht] at hcon; simp at hcon
    · rw [hc]; unfold structConfidence; exact min_le_left _ _
  · obtain ⟨ht, hc, _⟩ := mem_extract_style hB
    refine ⟨?_, ?_, fun _ => hc, ?_, ?_, hmono, hv2, hv10, hv20⟩
    · intro hcon; rw [ht] at hcon; simp at hcon
    · intro hcon; rw [ht] at hcon; simp at hcon
    · intro hcon; rw [ht] at hcon; simp at hcon
    · rw [hc]; unfold styleConfidence; exact min_le_left _ _
  · obtain ⟨ht, hc, _⟩ := mem_extract_content hC
    refine ⟨?_, fun _ => hc, ?_, ?_, ?_, hmono, hv2, hv10, hv20⟩
    · intro hcon; rw [ht] at hcon; simp at hcon
    · intro hcon; rw [ht] at hcon; simp at hcon
    · intro hcon; rw [ht] at hcon; simp at hcon
    · rw [hc]; unfold contentConfidence; exact min_le_left _ _
  · obtain ⟨ht, hc, _⟩ := mem_extract_format hD
    refine ⟨?_, ?_, ?_, fun _ => hc, ?_, hmono, hv2, hv10, hv20⟩
    · intro hcon; rw [ht] at hcon; simp at hcon
    · intro hcon; rw [ht] at hcon; simp at hcon
    · intro hcon; rw [ht] at hcon; simp at hcon
    · rw [hc]; norm_num

/-- A constant style classifier used by the C9 witness. -/
def styleConst : String → String := fun _ => "casual"

/-- A teacher example with the given output text. -/
def exStyle (o : String) : TeacherExample :=
  { input := "i", output := o, confidence := 9/10, tokens_used := 5,
    model := "t", context_keywords := ["ai"], iteration := 0 }

/-- Three examples that the constant classifier puts in one style group. -/
def examplesStyle : List TeacherExample :=
  [exStyle "o1", exStyle "o2", exStyle "o3"]

/-- The style pattern the extractor builds from that group of three. -/
def pStyleSample : KnowledgePattern :=
  { pattern_id := "style_casual", pattern_type := "style",
    keywords := ["ai"], template := "Style template for 3 examples",
    examples := ["o1", "o2", "o3"], confidence := styleConfidence 3,
    frequency := 3 }

/-- C9 witness: the confidence law applied to the concrete style pattern
extracted from a supporting group of size three. -/
theorem c9_witness :
    pStyleSample.confidence = styleConfidence pStyleSample.frequency := by
  have hstyle : extract_style_patterns styleConst examplesStyle =
      [pStyleSample] := by rfl
  have hmem : pStyleSample ∈ extract_patterns styleConst examplesStyle := by
    unfold extract_patterns
    refine List.mem_append.mpr (Or.inl (List.mem_append.mpr (Or.inl
      (List.mem_append.mpr (Or.inr ?_)))))
    rw [hstyle]
    exact List.mem_singleton.mpr rfl
  exact (c9_pattern_confidence styleConst examplesStyle pStyleSample
    hmem).2.2.1 rfl

/-- The sample size is at least one. -/
theorem sampleSize_pos (n : ℕ) (ratio : ℚ) : 1 ≤ sampleSize n ratio :=
  le_max_left _ _

/-- With a ratio at most one, the sample size is at most the data size. -/
theorem sampleSize_le (n : ℕ) (ratio : ℚ) (hn : 1 ≤ n) (hr : ratio ≤ 1) :
    sampleSize n ratio ≤ n := by
  unfold sampleSize
  refine max_le hn ?_
  have hmul : (n : ℚ) * ratio ≤ (n : ℚ) := by
    calc (n : ℚ) * ratio ≤ (n : ℚ) * 1 :=
          mul_le_mul_of_nonneg_left hr (by positivity)
      _ = (n : ℚ) := mul_one _
  have hfloor : ⌊(n : ℚ) * ratio⌋ ≤ ⌊(n : ℚ)⌋ := Int.floor_le_floor hmul
  have hfn : ⌊(n : ℚ)⌋ = (n : ℤ) := Int.floor_natCast n
  calc Int.toNat ⌊(n : ℚ) * ratio⌋ ≤ Int.toNat (n : ℤ) :=
        Int.toNat_le_toNat (hfn ▸ hfloor)
    _ = n := Int.toNat_natCast n

/-- The evenly spaced index list truncated to the sample size has exactly
the sample size many entries when 1 ≤ s ≤ n. -/
theorem sampleIndices_length (n s : ℕ) (h1 : 1 ≤ s) (h2 : s ≤ n) :
    (sampleIndices n s).length = s := by
  unfold sampleIndices pyRange
  rw [List.length_take, List.length_map, List.length_range]
  apply min_eq_left
  have hk : 1 ≤ n / s := (Nat.one_le_div_iff (by omega)).mpr h2
  have hks : n / s * s ≤ n := Nat.div_mul_le_self n s
  rw [Nat.le_div_iff_mul_le (by omega)]
  calc s * (n / s) = n / s * s := Nat.mul_comm _ _
    _ ≤ n := hks
    _ ≤ n + n / s - 1 := by omega

/-- The evenly spaced index list is nonempty when 1 ≤ s ≤ n. -/
theorem sampleIndices_length_pos (n s : ℕ) (h1 : 1 ≤ s) (h2 : s ≤ n) :
    1 ≤ (sampleIndices n s).length := by
  rw [sampleIndices_length n s h1 h2]
  exact h1

/-- Every validation score lies in the unit interval: parse failures and
call failures score 0.5, and parsed scores are clamped. -/
theorem validationScore_bounds (o : Option String) :
    0 ≤ validationScore o ∧ validationScore o ≤ 1 := by
  unfold validationScore
  cases o with
  | none => norm_num
  | some c =>
    cases h : pyParseScore c.trim with
    | none => simp only [h]; norm_num
    | some q =>
      simp only [h]
      constructor
      · exact le_max_left _ _
      · exact max_le (by norm_num) (min_le_left _ _)

/-- Inversion for a successful validate_batch call: the guard held and
the result fields are the sampled scores, their count and their mean. -/
theorem validate_batch_ok_inv (data : List StudentItem) (ratio : ℚ)
    (oracle : ValidationOracle) (v : ValidationResult)
    (h : validate_batch data ratio oracle = Except.ok v) :
    1 ≤ data.length / sampleSize data.length ratio ∧
    v.validations = sampledScores data.length ratio oracle ∧
    v.sample_size = (sampledScores data.length ratio oracle).length ∧
    v.average_quality = (sampledScores data.length ratio oracle).sum /
      ((sampledScores data.length ratio oracle).length : ℚ) ∧
    v.meets_threshold =
      decide (v.average_quality ≥ 4/5) := by
  unfold validate_batch at h
  by_cases hg : data.length / sampleSize data.length ratio = 0
  · rw [if_pos hg] at h
    simp at h
  · rw [if_neg hg] at h
    dsimp only at h
    simp only [Except.ok.injEq] at h
    subst h
    exact ⟨Nat.one_le_iff_ne_zero.mpr hg, rfl, rfl, rfl, rfl⟩

/-- The result dictionary validate_batch builds on its success path,
in terms of the sampled scores. -/
def vbResult (n : ℕ) (ratio : ℚ) (oracle : ValidationOracle) :
    ValidationResult :=
  { average_quality := (sampledScores n ratio oracle).sum /
      ((sampledScores n ratio oracle).length : ℚ)
    sample_size := (sampledScores n ratio oracle).length
    validations := sampledScores n ratio oracle
    meets_threshold := decide ((sampledScores n ratio oracle).sum /
      ((sampledScores n ratio oracle).length : ℚ) ≥ 4/5) }

/-- C5: on a non-empty item list with a sample ratio in the unit interval,
validate_batch succeeds, samples exactly max(1, floor(len * ratio)) items
(reported as sample_size and matching the validations list), reports
their mean as average_quality, and reports meets_threshold exactly when
that mean is at least 0.8. The request object and its quality threshold
are not inputs of validate_batch at all. -/
theorem c5_validate_batch_sampling (data : List StudentItem) (ratio : ℚ)
    (oracle : ValidationOracle) (hne : data ≠ []) (_hr0 : 0 < ratio)
    (hr1 : ratio ≤ 1) :
    ∃ v, validate_batch data ratio oracle = Except.ok v ∧
      v.sample_size = max 1 (Int.toNat ⌊(data.length : ℚ) * ratio⌋) ∧
      v.validations = sampledScores data.length ratio oracle ∧
      v.validations.length = v.sample_size ∧
      v.average_quality = v.validations.sum / (v.sample_size : ℚ) ∧
      (v.meets_threshold = true ↔ (4/5 : ℚ) ≤ v.average_quality) := by
  have hn : 1 ≤ data.length := List.length_pos.mpr hne
  have hsle : sampleSize data.length ratio ≤ data.length :=
    sampleSize_le data.length ratio hn hr1
  have hspos := sampleSize_pos data.length ratio
  have hg : data.length / sampleSize data.length ratio ≠ 0 := by
    have := (Nat.one_le_div_iff (by omega)).mpr hsle
    omega
  have hlen : (sampledScores data.length ratio oracle).length =
      sampleSize data.length ratio := by
    unfold sampledScores
    rw [List.length_map]
    exact sampleIndices_length data.length (sampleSize data.length ratio)
      hspos hsle
  refine ⟨vbResult data.length ratio oracle, ?_, ?_, rfl, rfl, rfl, ?_⟩
  · unfold validate_batch vbResult
    rw [if_neg hg]
  · exact hlen.trans rfl
  · simp [vbResult]

/-- A sample student item for the C5 witness. -/
def studentItemSample : StudentItem :=
  { content := "x", quality_estimate := 1/2, model := "s" }

/-- C5 witness: the sampling law applied to a two-item list at ratio one
half with an oracle answering 0.9. -/
theorem c5_witness :
    ∃ v, validate_batch [studentItemSample, studentItemSample] (1/2)
        (fun _ => some "0.9") = Except.ok v ∧
      v.sample_size = max 1 (Int.toNat
        ⌊(([studentItemSample, studentItemSample] :
            List StudentItem).length : ℚ) * (1/2)⌋) ∧
      v.validations = sampledScores
        ([studentItemSample, studentItemSample] :
          List StudentItem).length (1/2) (fun _ => some "0.9") ∧
      v.validations.length = v.sample_size ∧
      v.average_quality = v.validations.sum / (v.sample_size : ℚ) ∧
      (v.meets_threshold = true ↔ (4/5 : ℚ) ≤ v.average_quality) :=
  c5_validate_batch_sampling [studentItemSample, studentItemSample] (1/2)
    (fun _ => some "0.9") (by simp) (by norm_num) (by norm_num)

/-- Every teacher example built by generate_seed_data inherits its token
count from a successful oracle response. -/
theorem generate_seed_data_tokens (req : GenerationRequest)
    (model_name : String) (oracle : ℕ → Option ProviderResponse)
    (htok : ∀ i r, oracle i = some r → 0 ≤ r.tokens_used) :
    ∀ ex ∈ generate_seed_data req model_name oracle, 0 ≤ ex.tokens_used := by
  intro ex hex
  unfold generate_seed_data at hex
  rw [List.mem_filterMap] at hex
  obtain ⟨i, _, hsome⟩ := hex
  cases horacle : oracle i with
  | none => rw [horacle] at hsome; simp at hsome
  | some r =>
    rw [horacle] at hsome
    simp only [Option.map_some', Option.some.injEq] at hsome
    subst hsome
    exact htok i r horacle

/-- The response record generate_dataset assembles around the validation
result. -/
def assembleResponse (req : GenerationRequest) (tn sn : String)
    (tO sO : ℕ → Option ProviderResponse) (v : ValidationResult) :
    GenerationResponse :=
  { data := (generate_seed_data req tn tO).map (fun ex =>
      { content := ex.output, source := "teacher", quality := ex.confidence }) ++
      (generate_bulk_data req sn sO).map (fun item =>
      { content := item.content, source := "student",
        quality := item.quality_estimate })
    quality_score := v.average_quality
    cost := calculate_total_cost (generate_seed_data req tn tO)
      (generate_bulk_data req sn sO)
    model_used := tn ++ " + " ++ sn
    teacher_examples := (generate_seed_data req tn tO).length
    student_generated := (generate_bulk_data req sn sO).length
    learning_confidence := (learn_from_teacher
      (generate_seed_data req tn tO)).confidence
    validation_sample_size := v.sample_size
    meets_quality_threshold := v.meets_threshold }

/-- Closed form of the pipeline: generate_dataset is the validation
result mapped through the response assembly. -/
theorem generate_dataset_eq (req : GenerationRequest) (tn sn : String)
    (tO sO : ℕ → Option ProviderResponse) (vO : ValidationOracle) :
    generate_dataset req tn sn tO sO vO =
      (validate_batch (generate_bulk_data req sn sO) (1/10) vO).map
        (assembleResponse req tn sn tO sO) := by
  unfold generate_dataset assembleResponse
  dsimp only
  cases hv : validate_batch (generate_bulk_data req sn sO) (1/10) vO <;> rfl

/-- C6: whenever the pipeline returns a response (which requires the
student output to be non-empty, since an empty one makes validate_batch
raise) and every successful teacher call reported a non-negative token
count, the response quality score lies in the unit interval and the cost
is non-negative. -/
theorem c6_response_bounds (req : GenerationRequest)
    (teacher_name student_name : String)
    (tO sO : ℕ → Option ProviderResponse) (vO : ValidationOracle)
    (resp : GenerationResponse)
    (htok : ∀ i r, tO i = some r → 0 ≤ r.tokens_used)
    (hok : generate_dataset req teacher_name student_name tO sO vO =
      Except.ok resp) :
    0 ≤ resp.quality_score ∧ resp.quality_score ≤ 1 ∧ 0 ≤ resp.cost := by
  rw [generate_dataset_eq] at hok
  cases hval : validate_batch (generate_bulk_data req student_name sO)
      (1/10) vO with
  | error e =>
    rw [hval] at hok
    simp [Except.map] at hok
  | ok v =>
    rw [hval] at hok
    simp only [Except.map, Except.ok.injEq] at hok
    obtain ⟨hg, hvals, hsize, havg, _⟩ :=
      validate_batch_ok_inv _ _ _ _ hval
    set n := (generate_bulk_data req student_name sO).length with hn
    set s := sampleSize n (1/10) with hs
    have hspos : 1 ≤ s := sampleSize_pos n (1/10)
    have hsle : s ≤ n := (Nat.one_le_div_iff (by omega)).mp hg
    have hscores : 1 ≤ (sampledScores n (1/10) vO).length := by
      unfold sampledScores
      rw [List.length_map]
      exact sampleIndices_length_pos n s hspos hsle
    have hbounds : ∀ x ∈ sampledScores n (1/10) vO, 0 ≤ x ∧ x ≤ 1 := by
      intro x hx
      unfold sampledScores at hx
      rw [List.mem_map] at hx
      obtain ⟨i, _, hscore⟩ := hx
      rw [← hscore]
      exact validationScore_bounds (vO i)
    have hsum0 : 0 ≤ (sampledScores n (1/10) vO).sum :=
      List.sum_nonneg (fun x hx => (hbounds x hx).1)
    have hsum1 : (sampledScores n (1/10) vO).sum ≤
        ((sampledScores n (1/10) vO).length : ℚ) := by
      have := List.sum_le_card_nsmul (sampledScores n (1/10) vO) 1
        (fun x hx => (hbounds x hx).2)
      simpa using this
    have hlenpos : (0 : ℚ) < ((sampledScores n (1/10) vO).length : ℚ) := by
      exact_mod_cast hscores
    have hq : resp.quality_score = v.average_quality := by
      rw [← hok]
      rfl
    have hcost : resp.cost = calculate_total_cost
        (generate_seed_data req teacher_name tO)
        (generate_bulk_data req student_name sO) := by
      rw [← hok]
      rfl
    refine ⟨?_, ?_, ?_⟩
    · rw [hq, havg]
      exact div_nonneg hsum0 (le_of_lt hlenpos)
    · rw [hq, havg]
      rw [div_le_one hlenpos]
      exact hsum1
    · rw [hcost]
      unfold calculate_total_cost
      apply add_nonneg
      · apply List.sum_nonneg
        intro x hx
        rw [List.mem_map] at hx
        obtain ⟨ex, hex, hxeq⟩ := hx
        rw [← hxeq]
        have h0 : 0 ≤ ex.tokens_used :=
          generate_seed_data_tokens req teacher_name tO htok ex hex
        have hc : (0 : ℚ) ≤ (ex.tokens_used : ℚ) := by exact_mod_cast h0
        positivity
      · positivity

/-- The teacher oracle of the C6 witness: one successful call. -/
def tOracleOne : ℕ → Option ProviderResponse :=
  fun i => if i = 0 then
    some { content := "t-out", confidence := 9/10, tokens_used := 5 }
  else none

/-- The student oracle of the C6 witness: every call succeeds. -/
def sOracleConst : ℕ → Option ProviderResponse :=
  fun _ => some { content := "s-out", confidence := 7/10, tokens_used := 3 }

/-- The validation oracle of the C6 witness: every call answers 0.9. -/
def vOracleConst : ValidationOracle := fun _ => some "0.9"

/-- C6 witness: concrete bounds for a run with one successful teacher
call, twenty successful student calls and 0.9 validation answers. -/
theorem c6_witness :
    ∃ resp, generate_dataset (reqSample 20) "teacher" "student"
        tOracleOne sOracleConst vOracleConst = Except.ok resp ∧
      0 ≤ resp.quality_score ∧ resp.quality_score ≤ 1 ∧ 0 ≤ resp.cost := by
  have htok : ∀ i r, tOracleOne i = some r → 0 ≤ r.tokens_used := by
    intro i r hir
    unfold tOracleOne at hir
    by_cases hi : i = 0
    · rw [if_pos hi] at hir
      cases hir
      norm_num
    · rw [if_neg hi] at hir
      exact absurd hir (by simp)
  have hlen : (generate_bulk_data (reqSample 20) "student"
      sOracleConst).length = 20 := by
    unfold generate_bulk_data
    rw [length_filterMap_of_isSome]
    · simp [reqSample]
    · intro a ha
      rfl
  cases hval : validate_batch (generate_bulk_data (reqSample 20) "student"
      sOracleConst) (1/10) vOracleConst with
  | error e =>
    exfalso
    have hg : (generate_bulk_data (reqSample 20) "student"
        sOracleConst).length / sampleSize (generate_bulk_data (reqSample 20)
          "student" sOracleConst).length (1/10) ≠ 0 := by
      rw [hlen]
      unfold sampleSize
      norm_num
      decide
    unfold validate_batch at hval
    rw [if_neg hg] at hval
    simp at hval
  | ok v =>
    have hok : generate_dataset (reqSample 20) "teacher" "student"
        tOracleOne sOracleConst vOracleConst =
        Except.ok (assembleResponse (reqSample 20) "teacher" "student"
          tOracleOne sOracleConst v) := by
      rw [generate_dataset_eq, hval]
      rfl
    exact ⟨_, hok, c6_response_bounds (reqSample 20) "teacher" "student"
      tOracleOne sOracleConst vOracleConst _ htok hok⟩

/-- Pruning keeps a list whose members all lie beyond the cutoff. -/
theorem pruneTimes_eq_self (l : List ℚ) (cutoff : ℚ)
    (h : ∀ a ∈ l, cutoff < a) : pruneTimes l cutoff = l := by
  unfold pruneTimes
  apply List.filter_eq_self.mpr
  intro a ha
  simpa using h a ha

/-- A call below the limit does not suspend: it prunes (a no-op within
the window), records its own timestamp and returns. -/
theorem wait_not_suspend (N : ℕ) (times : List ℚ) (t : ℚ)
    (hlen : times.length < N) (hsp : ∀ a ∈ times, t - a < 60) :
    wait_if_needed ⟨N, times⟩ t = Except.ok (false, ⟨N, times ++ [t]⟩) := by
  unfold wait_if_needed
  dsimp only
  rw [pruneTimes_eq_self times (t - 60) (fun a ha => by linarith [hsp a ha])]
  rw [if_neg (by omega)]

/-- A call at the limit suspends. -/
theorem wait_suspends (N : ℕ) (t0 : ℚ) (rest : List ℚ) (t : ℚ)
    (hlen : N ≤ (t0 :: rest).length)
    (hsp : ∀ a ∈ t0 :: rest, t - a < 60) :
    ∃ s2, wait_if_needed ⟨N, t0 :: rest⟩ t = Except.ok (true, s2) := by
  have hwait : (0 : ℚ) < 60 - (t - t0) := by
    linarith [hsp t0 (List.mem_cons_self t0 rest)]
  have hred : wait_if_needed ⟨N, t0 :: rest⟩ t =
      (if 0 < 60 - (t - t0) then
        Except.ok (true, (⟨N, pruneTimes (t0 :: rest)
          ((t + (60 - (t - t0))) - 60) ++ [t + (60 - (t - t0))]⟩ : RLState))
      else
        Except.ok (false, (⟨N, (t0 :: rest) ++ [t]⟩ : RLState))) := by
    unfold wait_if_needed
    dsimp only
    rw [pruneTimes_eq_self (t0 :: rest) (t - 60)
      (fun a ha => by linarith [hsp a ha])]
    rw [if_pos hlen]
  rw [hred, if_pos hwait]
  exact ⟨_, rfl⟩

/-- Suspension happens exactly when the pruned window already holds the
configured limit: the sleep-guard wait time is always positive because
every surviving timestamp is younger than sixty seconds. -/
theorem wait_if_needed_suspend_iff (s : RLState) (now : ℚ) (b : Bool)
    (s2 : RLState) (hN : 1 ≤ s.requests_per_minute)
    (h : wait_if_needed s now = Except.ok (b, s2)) :
    b = true ↔
      s.requests_per_minute ≤ (pruneTimes s.request_times (now - 60)).length := by
  unfold wait_if_needed at h
  by_cases hge : (pruneTimes s.request_times (now - 60)).length ≥
      s.requests_per_minute
  · rw [if_pos hge] at h
    cases hp : pruneTimes s.request_times (now - 60) with
    | nil =>
      rw [hp] at hge
      simp at hge
      omega
    | cons t0 rest =>
      rw [hp] at h
      have ht0 : now - 60 < t0 := by
        have hmem : t0 ∈ pruneTimes s.request_times (now - 60) :=
          hp ▸ List.mem_cons_self t0 rest
        unfold pruneTimes at hmem
        have := List.of_mem_filter hmem
        simpa using this
      have hwait : (0 : ℚ) < 60 - (now - t0) := by linarith
      simp only [if_pos hwait] at h
      simp only [Except.ok.injEq, Prod.mk.injEq] at h
      exact ⟨fun _ => hp ▸ hge, fun _ => h.1.symm⟩
  · rw [if_neg hge] at h
    simp only [Except.ok.injEq, Prod.mk.injEq] at h
    constructor
    · intro hb
      rw [← h.1] at hb
      simp at hb
    · intro hle
      exact absurd hle hge

/-- A run whose calls never fill the window suspends nobody and records
every timestamp in order. -/
theorem runCalls_no_suspend (ts : List ℚ) :
    ∀ (prior : List ℚ) (N : ℕ), prior.length + ts.length ≤ N →
    (∀ a ∈ prior, ∀ b ∈ ts, b - a < 60) →
    (∀ a ∈ ts, ∀ b ∈ ts, b - a < 60) →
    runCalls ⟨N, prior⟩ ts = Except.ok (0, ⟨N, prior ++ ts⟩) := by
  induction ts with
  | nil =>
    intro prior N _ _ _
    simp [runCalls]
  | cons t ts ih =>
    intro prior N hlen hpf hff
    have hstep : wait_if_needed ⟨N, prior⟩ t =
        Except.ok (false, ⟨N, prior ++ [t]⟩) := by
      apply wait_not_suspend
      · simp at hlen
        omega
      · intro a ha
        exact hpf a ha t (List.mem_cons_self t ts)
    have hrec : runCalls ⟨N, prior ++ [t]⟩ ts =
        Except.ok (0, ⟨N, (prior ++ [t]) ++ ts⟩) := by
      apply ih
      · simp at hlen ⊢
        omega
      · intro a ha b hb
        rcases List.mem_append.mp ha with hap | hat
        · exact hpf a hap b (List.mem_cons_of_mem t hb)
        · rw [List.mem_singleton.mp hat]
          exact hff t (List.mem_cons_self t ts) b (List.mem_cons_of_mem t hb)
      · intro a ha b hb
        exact hff a (List.mem_cons_of_mem t ha) b (List.mem_cons_of_mem t hb)
    rw [show runCalls ⟨N, prior⟩ (t :: ts) = do
        let br ← wait_if_needed ⟨N, prior⟩ t
        let res ← runCalls br.2 ts
        Except.ok ((if br.1 then 1 else 0) + res.1, res.2) from rfl]
    rw [hstep]
    show (do
      let res ← runCalls (⟨N, prior ++ [t]⟩ : RLState) ts
      Except.ok ((if false then 1 else 0) + res.1, res.2) :
        Except String (ℕ × RLState)) = _
    rw [hrec]
    show (Except.ok ((if false then 1 else 0) + 0,
        (⟨N, (prior ++ [t]) ++ ts⟩ : RLState)) :
        Except String (ℕ × RLState)) =
      Except.ok (0, (⟨N, prior ++ t :: ts⟩ : RLState))
    simp [List.append_assoc]

/-- Splitting a run of calls: the counts of the two halves add and the
state threads through. -/
theorem runCalls_append (ys : List ℚ) (xs : List ℚ) :
    ∀ (s : RLState) (c1 : ℕ) (s1 : RLState),
    runCalls s xs = Except.ok (c1, s1) →
    runCalls s (xs ++ ys) =
      (runCalls s1 ys).map (fun r => (c1 + r.1, r.2)) := by
  induction xs with
  | nil =>
    intro s c1 s1 h
    have h2 : (Except.ok ((0 : ℕ), s) : Except String (ℕ × RLState)) =
        Except.ok (c1, s1) := h
    simp only [Except.ok.injEq, Prod.mk.injEq] at h2
    obtain ⟨hc, hs⟩ := h2
    subst hc
    subst hs
    show runCalls s ys = (runCalls s ys).map (fun r => (0 + r.1, r.2))
    cases hy : runCalls s ys with
    | error e => rfl
    | ok r => simp [Except.map]
  | cons x xs ih =>
    intro s c1 s1 h
    cases hw : wait_if_needed s x with
    | error e =>
      exfalso
      rw [show runCalls s (x :: xs) = do
          let br ← wait_if_needed s x
          let res ← runCalls br.2 xs
          Except.ok ((if br.1 then 1 else 0) + res.1, res.2) from rfl,
        hw] at h
      exact Except.noConfusion h
    | ok br =>
      rw [show runCalls s (x :: xs) = do
          let br2 ← wait_if_needed s x
          let res ← runCalls br2.2 xs
          Except.ok ((if br2.1 then 1 else 0) + res.1, res.2) from rfl,
        hw] at h
      have h2 : (do
          let res ← runCalls br.2 xs
          Except.ok ((if br.1 then 1 else 0) + res.1, res.2) :
            Except String (ℕ × RLState)) = Except.ok (c1, s1) := h
      cases hx : runCalls br.2 xs with
      | error e =>
        exfalso
        rw [hx] at h2
        exact Except.noConfusion h2
      | ok res =>
        rw [hx] at h2
        have h3 : (Except.ok ((if br.1 then 1 else 0) + res.1, res.2) :
            Except String (ℕ × RLState)) = Except.ok (c1, s1) := h2
        simp only [Except.ok.injEq, Prod.mk.injEq] at h3
        obtain ⟨hc, hs⟩ := h3
        have hstep : runCalls s ((x :: xs) ++ ys) = (do
            let res2 ← runCalls br.2 (xs ++ ys)
            Except.ok ((if br.1 then 1 else 0) + res2.1, res2.2) :
              Except String (ℕ × RLState)) := by
          rw [show runCalls s ((x :: xs) ++ ys) = do
            let br2 ← wait_if_needed s x
            let res2 ← runCalls br2.2 (xs ++ ys)
            Except.ok ((if br2.1 then 1 else 0) + res2.1, res2.2) from rfl,
            hw]
          rfl
        rw [hstep, ih br.2 res.1 res.2 hx, ← hs]
        cases hy : runCalls res.2 ys with
        | error e => rfl
        | ok r =>
          show Except.ok ((if br.1 then 1 else 0) + (res.1 + r.1), r.2) =
            Except.ok (c1 + r.1, r.2)
          rw [← hc, add_assoc]

/-- C8: with a positive per-minute limit N and N+1 calls in rapid
succession (each pair of call times less than sixty seconds apart), the
first N calls suspend nobody, the full run suspends exactly once, and
the suspension happens in the final call; moreover any single call
suspends exactly when the sixty-second window still holds at least the
limit many timestamps after pruning. -/
theorem c8_rate_limiter (N : ℕ) (front : List ℚ) (tlast : ℚ)
    (hN : 1 ≤ N) (hlen : front.length = N)
    (hspread : ∀ a ∈ front ++ [tlast], ∀ b ∈ front ++ [tlast], b - a < 60) :
    (runCalls ⟨N, []⟩ front).map Prod.fst = Except.ok 0 ∧
    (runCalls ⟨N, []⟩ (front ++ [tlast])).map Prod.fst = Except.ok 1 ∧
    (∀ (s : RLState) (now : ℚ) (b : Bool) (s2 : RLState),
      1 ≤ s.requests_per_minute →
      wait_if_needed s now = Except.ok (b, s2) →
      (b = true ↔ s.requests_per_minute ≤
        (pruneTimes s.request_times (now - 60)).length)) := by
  have hfrontmem : ∀ a ∈ front, a ∈ front ++ [tlast] := by
    intro a ha
    exact List.mem_append.mpr (Or.inl ha)
  have hlastmem : tlast ∈ front ++ [tlast] :=
    List.mem_append.mpr (Or.inr (List.mem_singleton.mpr rfl))
  have hfront : runCalls ⟨N, []⟩ front = Except.ok (0, ⟨N, front⟩) := by
    have := runCalls_no_suspend front [] N (by simp [hlen]) (by simp)
      (fun a ha b hb => hspread a (hfrontmem a ha) b (hfrontmem b hb))
    simpa using this
  refine ⟨by rw [hfront]; rfl, ?_, fun s now b s2 hsN h =>
    wait_if_needed_suspend_iff s now b s2 hsN h⟩
  rw [runCalls_append [tlast] front ⟨N, []⟩ 0 ⟨N, front⟩ hfront]
  cases hf : front with
  | nil =>
    exfalso
    rw [hf] at hlen
    simp at hlen
    omega
  | cons t0 rest =>
    obtain ⟨s2, hs2⟩ := wait_suspends N t0 rest tlast
      (by rw [← hf, hlen])
      (fun a ha => hspread a (hfrontmem a (hf ▸ ha)) tlast hlastmem)
    rw [show runCalls (⟨N, t0 :: rest⟩ : RLState) [tlast] = do
        let br ← wait_if_needed ⟨N, t0 :: rest⟩ tlast
        let res ← runCalls br.2 []
        Except.ok ((if br.1 then 1 else 0) + res.1, res.2) from rfl, hs2]
    rfl

/-- C8 witness: limit 2, calls at times 0, 1 and 2. -/
theorem c8_witness :
    (runCalls ⟨2, []⟩ [0, 1]).map Prod.fst = Except.ok 0 ∧
    (runCalls ⟨2, []⟩ ([0, 1] ++ [2])).map Prod.fst = Except.ok 1 ∧
    (∀ (s : RLState) (now : ℚ) (b : Bool) (s2 : RLState),
      1 ≤ s.requests_per_minute →
      wait_if_needed s now = Except.ok (b, s2) →
      (b = true ↔ s.requests_per_minute ≤
        (pruneTimes s.request_times (now - 60)).length)) :=
  c8_rate_limiter 2 [0, 1] 2 (by norm_num) (by simp)
    (by
      intro a ha b hb
      simp only [List.cons_append, List.nil_append, List.mem_cons,
        List.mem_singleton, List.not_mem_nil, or_false] at ha hb
      rcases ha with rfl | rfl | rfl <;> rcases hb with rfl | rfl | rfl <;>
        norm_num)

/-- An accepted candidate passed the budget filter, passed the quality
filter, and carries its scan ratio. -/
theorem evalCandidateCore_some_inv (req : CostRequest) (budget : CostBudget)
    (tm sm : String) (r : ℚ) (tq sq : ℕ) (te se : GenerationCostEstimate)
    (score : ℚ) (alloc : Allocation)
    (h : evalCandidateCore req budget tm sm r tq sq te se =
      Except.ok (some (score, alloc))) :
    alloc.total_cost ≤ budget.total_budget ∧
    req.quality_threshold ≤ alloc.expected_quality ∧
    alloc.teacher_ratio = r := by
  unfold evalCandidateCore at h
  dsimp only at h
  split_ifs at h with h1 h2 h3 <;>
    first
    | (simp at h
       done)
    | (simp only [Except.ok.injEq, Option.some.injEq, Prod.mk.injEq] at h
       rw [← h.2]
       exact ⟨not_lt.mp h1, not_lt.mp h2, rfl⟩)

/-- Inversion through the two cost estimates of one scan iteration. -/
theorem evalCandidate_some_inv (profiles : ProfileMap) (req : CostRequest)
    (budget : CostBudget) (tm sm : String) (r : ℚ) (score : ℚ)
    (alloc : Allocation)
    (h : evalCandidate profiles req budget tm sm r =
      Except.ok (some (score, alloc))) :
    alloc.total_cost ≤ budget.total_budget ∧
    req.quality_threshold ≤ alloc.expected_quality ∧
    alloc.teacher_ratio = r := by
  unfold evalCandidate at h
  dsimp only at h
  cases hte : estimate_generation_cost profiles
      { req with quantity := Int.toNat ⌊(req.quantity : ℚ) * r⌋ } tm with
  | error e =>
    rw [hte] at h
    exact Except.noConfusion h
  | ok te =>
    rw [hte] at h
    have h2 : (do
        let se ← estimate_generation_cost profiles
          { req with quantity :=
            req.quantity - Int.toNat ⌊(req.quantity : ℚ) * r⌋ } sm
        evalCandidateCore req budget tm sm r
          (Int.toNat ⌊(req.quantity : ℚ) * r⌋)
          (req.quantity - Int.toNat ⌊(req.quantity : ℚ) * r⌋) te se) =
        Except.ok (some (score, alloc)) := h
    cases hse : estimate_generation_cost profiles
        { req with quantity :=
          req.quantity - Int.toNat ⌊(req.quantity : ℚ) * r⌋ } sm with
    | error e =>
      rw [hse] at h2
      exact Except.noConfusion h2
    | ok se =>
      rw [hse] at h2
      have h3 : evalCandidateCore req budget tm sm r
          (Int.toNat ⌊(req.quantity : ℚ) * r⌋)
          (req.quantity - Int.toNat ⌊(req.quantity : ℚ) * r⌋) te se =
          Except.ok (some (score, alloc)) := h2
      exact evalCandidateCore_some_inv _ _ _ _ _ _ _ _ _ _ _ h3

/-- The scan fold preserves the viability invariant on the best
allocation seen so far. -/
theorem allocFold_inv (profiles : ProfileMap) (req : CostRequest)
    (budget : CostBudget) (tm sm : String) :
    ∀ (rs : List ℚ) (bestScore : ℚ) (best : Option Allocation),
    (∀ a, best = some a →
      a.total_cost ≤ budget.total_budget ∧
      req.quality_threshold ≤ a.expected_quality ∧
      a.teacher_ratio ∈ allocCandidates) →
    (∀ r ∈ rs, r ∈ allocCandidates) →
    ∀ res, allocFold profiles req budget tm sm rs bestScore best =
      Except.ok res →
    ∀ a, res = some a →
      a.total_cost ≤ budget.total_budget ∧
      req.quality_threshold ≤ a.expected_quality ∧
      a.teacher_ratio ∈ allocCandidates := by
  intro rs
  induction rs with
  | nil =>
    intro bestScore best hbest _ res hres a ha
    have h2 : (Except.ok best : Except String (Option Allocation)) =
        Except.ok res := hres
    simp only [Except.ok.injEq] at h2
    exact hbest a (h2 ▸ ha)
  | cons r rs ih =>
    intro bestScore best hbest hrs res hres a ha
    rw [show allocFold profiles req budget tm sm (r :: rs) bestScore best = do
        let c ← evalCandidate profiles req budget tm sm r
        match c with
        | none => allocFold profiles req budget tm sm rs bestScore best
        | some (score, alloc) =>
          if score > bestScore then
            allocFold profiles req budget tm sm rs score (some alloc)
          else
            allocFold profiles req budget tm sm rs bestScore best
      from rfl] at hres
    cases hc : evalCandidate profiles req budget tm sm r with
    | error e =>
      rw [hc] at hres
      exact Except.noConfusion hres
    | ok c =>
      rw [hc] at hres
      cases c with
      | none =>
        have h2 : allocFold profiles req budget tm sm rs bestScore best =
            Except.ok res := hres
        exact ih bestScore best hbest
          (fun x hx => hrs x (List.mem_cons_of_mem r hx)) res h2 a ha
      | some sa =>
        obtain ⟨score, alloc⟩ := sa
        have hviable := evalCandidate_some_inv profiles req budget tm sm r
          score alloc hc
        have h2 : (if score > bestScore then
            allocFold profiles req budget tm sm rs score (some alloc)
          else
            allocFold profiles req budget tm sm rs bestScore best) =
            Except.ok res := hres
        by_cases hscore : score > bestScore
        · rw [if_pos hscore] at h2
          refine ih score (some alloc) ?_
            (fun x hx => hrs x (List.mem_cons_of_mem r hx)) res h2 a ha
          intro b hb
          simp only [Option.some.injEq] at hb
          subst hb
          exact ⟨hviable.1, hviable.2.1,
            hviable.2.2 ▸ hrs r (List.mem_cons_self r rs)⟩
        · rw [if_neg hscore] at h2
          exact ih bestScore best hbest
            (fun x hx => hrs x (List.mem_cons_of_mem r hx)) res h2 a ha

/-- C3 (amended): every allocation the optimizer returns satisfies the
budget bound and the quality threshold, and its teacher ratio is one of
the scanned candidates 5 percent through 45 percent in 5-percent steps
(the np.arange stop bound 0.5 is exclusive); a run that finds no viable
ratio returns the no-viable-allocation value, a normal result rather
than an exception. -/
theorem c3_allocation_guarantees (profiles : ProfileMap)
    (req : CostRequest) (budget : CostBudget) (a : Allocation)
    (h : optimize_teacher_student_allocation profiles req budget =
      Except.ok (AllocationOutcome.found a)) :
    a.total_cost ≤ budget.total_budget ∧
    req.quality_threshold ≤ a.expected_quality ∧
    a.teacher_ratio ∈ allocCandidates := by
  unfold optimize_teacher_student_allocation at h
  cases htm : select_best_teacher_model profiles with
  | error e =>
    rw [htm] at h
    exact Except.noConfusion h
  | ok tm =>
    rw [htm] at h
    have h2 : (do
        let sm ← select_best_student_model profiles
        let best ← allocFold profiles req budget tm sm allocCandidates (-1) none
        match best with
        | some b => pure (AllocationOutcome.found b)
        | none => pure AllocationOutcome.noViable) =
        Except.ok (AllocationOutcome.found a) := h
    cases hsm : select_best_student_model profiles with
    | error e =>
      rw [hsm] at h2
      exact Except.noConfusion h2
    | ok sm =>
      rw [hsm] at h2
      have h3 : (do
          let best ← allocFold profiles req budget tm sm allocCandidates
            (-1) none
          match best with
          | some b => pure (AllocationOutcome.found b)
          | none => pure AllocationOutcome.noViable) =
          Except.ok (AllocationOutcome.found a) := h2
      cases hbest : allocFold profiles req budget tm sm allocCandidates
          (-1) none with
      | error e =>
        rw [hbest] at h3
        exact Except.noConfusion h3
      | ok best =>
        rw [hbest] at h3
        cases best with
        | none =>
          have h4 : (Except.ok AllocationOutcome.noViable :
              Except String AllocationOutcome) =
              Except.ok (AllocationOutcome.found a) := h3
          simp at h4
        | some b =>
          have h4 : (Except.ok (AllocationOutcome.found b) :
              Except String AllocationOutcome) =
              Except.ok (AllocationOutcome.found a) := h3
          simp only [Except.ok.injEq, AllocationOutcome.found.injEq] at h4
          subst h4
          exact allocFold_inv profiles req budget tm sm allocCandidates
            (-1) none (fun x hx => Option.noConfusion hx)
            (fun x hx => hx) (some b) hbest b rfl

/-- Teacher profile of the C3 counterexample: top quality, not cheap. -/
def profT : ModelCostProfile :=
  { provider := "T", model_name := "t", input_cost_per_token := 1,
    output_cost_per_token := 0, quality_rating := 1, speed_rating := 1,
    reliability_rating := 1 }

/-- Student profile of the C3 counterexample: cheap, zero quality. -/
def profS : ModelCostProfile :=
  { provider := "S", model_name := "s", input_cost_per_token := 1/1000,
    output_cost_per_token := 0, quality_rating := 0, speed_rating := 1,
    reliability_rating := 1 }

/-- The registered profiles of the C3 counterexample. -/
def profilesCX : ProfileMap := [("T_t", profT), ("S_s", profS)]

/-- The C3 counterexample request: threshold 0.48 sits strictly between
the best scanned expected quality (0.45 at teacher ratio 45 percent) and
the expected quality 0.5 of the unscanned 50 percent ratio. -/
def reqCX : CostRequest :=
  { keywords := ["k"], data_type := "qa", context := "", quantity := 20,
    quality_threshold := 12/25 }

/-- A budget that no candidate violates. -/
def budgetCX : CostBudget :=
  { total_budget := 1000, daily_budget := none, hourly_budget := none,
    cost_per_item_limit := none, quality_cost_ratio_min := 1 }

/-- The teacher cost estimate in the counterexample configuration. -/
theorem estimateCX_T (q : ℕ) :
    estimate_generation_cost profilesCX { reqCX with quantity := q } "T_t" =
      Except.ok
        { estimated_input_tokens := 105
          estimated_output_tokens := 50 * q
          estimated_cost := 21/200
          estimated_time := (q : ℚ)
          quality_expectation := 1
          confidence := 1 } := by
  unfold estimate_generation_cost
  rw [show profileLookup profilesCX "T_t" = some profT from rfl]
  norm_num [profT, reqCX, estimate_input_tokens, estimate_output_tokens,
    tokens_per_item]

/-- The student cost estimate in the counterexample configuration. -/
theorem estimateCX_S (q : ℕ) :
    estimate_generation_cost profilesCX { reqCX with quantity := q } "S_s" =
      Except.ok
        { estimated_input_tokens := 105
          estimated_output_tokens := 50 * q
          estimated_cost := 21/200000
          estimated_time := (q : ℚ)
          quality_expectation := 0
          confidence := 1 } := by
  unfold estimate_generation_cost
  rw [show profileLookup profilesCX "S_s" = some profS from rfl]
  norm_num [profS, reqCX, estimate_input_tokens, estimate_output_tokens,
    tokens_per_item]

/-- Model selection picks the high-quality profile as teacher. -/
theorem selectCX_T : select_best_teacher_model profilesCX =
    Except.ok "T_t" := by
  have hf : profilesCX.filter
      (fun kv => kv.2.quality_rating > 4/5) = [("T_t", profT)] := by
    norm_num [profilesCX, profT, profS, List.filter_cons]
  unfold select_best_teacher_model
  rw [hf]
  rfl

/-- Model selection picks the cheap profile as student. -/
theorem selectCX_S : select_best_student_model profilesCX =
    Except.ok "S_s" := by
  have hf : profilesCX.filter
      (fun kv => kv.2.input_cost_per_token < 1/100) = [("S_s", profS)] := by
    norm_num [profilesCX, profT, profS, List.filter_cons]
  unfold select_best_student_model
  rw [hf]
  rfl

/-- Every scanned candidate ratio is at most 9/20. -/
theorem allocCandidates_le : ∀ r ∈ allocCandidates, 0 ≤ r ∧ r ≤ 9/20 := by
  intro r hr
  unfold allocCandidates at hr
  obtain ⟨i, hi, rfl⟩ := List.mem_map.mp hr
  have hi9 : i < 9 := List.mem_range.mp hi
  have hcast : (i : ℚ) ≤ 8 := by exact_mod_cast Nat.le_of_lt_succ hi9
  constructor
  · positivity
  · rw [div_le_div_iff_of_pos_right (by norm_num : (0:ℚ) < 20)]
    linarith

/-- One scan iteration, reduced to the core filters once the two cost
estimates succeed. -/
theorem evalCandidate_eq (profiles : ProfileMap) (req : CostRequest)
    (budget : CostBudget) (tm sm : String) (r : ℚ)
    (te se : GenerationCostEstimate)
    (hte : estimate_generation_cost profiles
      { req with quantity := Int.toNat ⌊(req.quantity : ℚ) * r⌋ } tm =
      Except.ok te)
    (hse : estimate_generation_cost profiles
      { req with quantity :=
        req.quantity - Int.toNat ⌊(req.quantity : ℚ) * r⌋ } sm =
      Except.ok se) :
    evalCandidate profiles req budget tm sm r =
      evalCandidateCore req budget tm sm r
        (Int.toNat ⌊(req.quantity : ℚ) * r⌋)
        (req.quantity - Int.toNat ⌊(req.quantity : ℚ) * r⌋) te se := by
  have hbind : ∀ (a : GenerationCostEstimate)
      (f : GenerationCostEstimate → Except String (Option (ℚ × Allocation))),
      (Except.ok a >>= f) = f a := fun _ _ => rfl
  unfold evalCandidate
  dsimp only
  rw [hte]
  simp only [hbind]
  rw [hse]
  simp only [hbind]

/-- Every ratio up to 45 percent is rejected by the quality filter in
the counterexample configuration. -/
theorem evalCX_none (r : ℚ) (hr : r ≤ 9/20) :
    evalCandidate profilesCX reqCX budgetCX "T_t" "S_s" r =
      Except.ok none := by
  rw [evalCandidate_eq profilesCX reqCX budgetCX "T_t" "S_s" r _ _
    (estimateCX_T _) (estimateCX_S _)]
  unfold evalCandidateCore
  dsimp only
  rw [if_neg (show ¬ ((21:ℚ)/200 + 21/200000 > budgetCX.total_budget) by
    norm_num [budgetCX])]
  rw [if_pos (show (1:ℚ) * r + 0 * (1 - r) < reqCX.quality_threshold by
    have h1 : (1:ℚ) * r + 0 * (1 - r) = r := by ring
    rw [h1]
    show r < (12 : ℚ)/25
    linarith)]

/-- A fold over candidates that are all rejected returns the incoming
best allocation unchanged. -/
theorem allocFold_all_none (profiles : ProfileMap) (req : CostRequest)
    (budget : CostBudget) (tm sm : String) :
    ∀ (rs : List ℚ),
    (∀ r ∈ rs, evalCandidate profiles req budget tm sm r = Except.ok none) →
    ∀ (bs : ℚ) (best : Option Allocation),
    allocFold profiles req budget tm sm rs bs best = Except.ok best := by
  intro rs
  induction rs with
  | nil => intro _ bs best; rfl
  | cons r rs ih =>
    intro hall bs best
    rw [show allocFold profiles req budget tm sm (r :: rs) bs best = do
        let c ← evalCandidate profiles req budget tm sm r
        match c with
        | none => allocFold profiles req budget tm sm rs bs best
        | some (score, alloc) =>
          if score > bs then
            allocFold profiles req budget tm sm rs score (some alloc)
          else
            allocFold profiles req budget tm sm rs bs best
      from rfl]
    rw [hall r (List.mem_cons_self r rs)]
    exact ih (fun x hx => hall x (List.mem_cons_of_mem r hx)) bs best

/-- C3 counterexample: the optimizer reports no viable allocation, yet
the 50 percent teacher ratio, which is not among the scanned candidates
(the np.arange stop bound is exclusive), would pass both the budget
filter and the quality filter; this refutes the claim that ratios from
5 to 50 percent are scanned. -/
theorem c3_counterexample :
    optimize_teacher_student_allocation profilesCX reqCX budgetCX =
      Except.ok AllocationOutcome.noViable ∧
    ((10 : ℚ)/20) ∉ allocCandidates ∧
    (∃ score alloc,
      evalCandidate profilesCX reqCX budgetCX "T_t" "S_s" ((10 : ℚ)/20) =
        Except.ok (some (score, alloc))) := by
  refine ⟨?_, ?_, ?_⟩
  · unfold optimize_teacher_student_allocation
    rw [selectCX_T]
    show (do
      let sm ← select_best_student_model profilesCX
      let best ← allocFold profilesCX reqCX budgetCX "T_t" sm
        allocCandidates (-1) none
      match best with
      | some a => pure (AllocationOutcome.found a)
      | none => pure AllocationOutcome.noViable) =
      Except.ok AllocationOutcome.noViable
    rw [selectCX_S]
    show (do
      let best ← allocFold profilesCX reqCX budgetCX "T_t" "S_s"
        allocCandidates (-1) none
      match best with
      | some a => pure (AllocationOutcome.found a)
      | none => pure AllocationOutcome.noViable) =
      Except.ok AllocationOutcome.noViable
    rw [allocFold_all_none profilesCX reqCX budgetCX "T_t" "S_s"
      allocCandidates
      (fun r hr => evalCX_none r (allocCandidates_le r hr).2) (-1) none]
    rfl
  · intro hmem
    unfold allocCandidates at hmem
    obtain ⟨i, hi, heq⟩ := List.mem_map.mp hmem
    have hi9 : i < 9 := List.mem_range.mp hi
    have h10 : (i : ℚ) + 1 = 10 := by
      field_simp at heq
      linarith
    have hieq : i = 9 := by exact_mod_cast (by linarith : (i : ℚ) = 9)
    omega
  · rw [evalCandidate_eq profilesCX reqCX budgetCX "T_t" "S_s" (10/20) _ _
      (estimateCX_T _) (estimateCX_S _)]
    unfold evalCandidateCore
    dsimp only
    rw [if_neg (show ¬ ((21:ℚ)/200 + 21/200000 > budgetCX.total_budget) by
      norm_num [budgetCX])]
    rw [if_neg (show ¬ ((1:ℚ) * (10/20) + 0 * (1 - 10/20) <
        reqCX.quality_threshold) by
      show ¬ ((1:ℚ) * (10/20) + 0 * (1 - 10/20) < 12/25)
      norm_num)]
    rw [if_neg (show ¬ ((21:ℚ)/200 + 21/200000 = 0) by norm_num)]
    exact ⟨_, _, rfl⟩

/-- First profile of the C3 witness configuration: low quality, not
cheap, so neither filter selects it and it serves as the teacher
fallback. -/
def profA : ModelCostProfile :=
  { provider := "A", model_name := "a", input_cost_per_token := 1,
    output_cost_per_token := 0, quality_rating := 0, speed_rating := 1,
    reliability_rating := 1 }

/-- Second profile of the C3 witness configuration: cheap, selected as
student. -/
def profB : ModelCostProfile :=
  { provider := "B", model_name := "b", input_cost_per_token := 1/1000,
    output_cost_per_token := 0, quality_rating := 0, speed_rating := 1,
    reliability_rating := 1 }

/-- The registered profiles of the C3 witness. -/
def profilesW : ProfileMap := [("A_a", profA), ("B_b", profB)]

/-- The C3 witness request: threshold zero, so every ratio is viable. -/
def reqW : CostRequest :=
  { keywords := ["k"], data_type := "qa", context := "", quantity := 20,
    quality_threshold := 0 }

/-- The allocation built for ratio r in the witness configuration. -/
def allocW (r : ℚ) : Allocation :=
  { teacher_model := "A_a", student_model := "B_b",
    teacher_quantity := Int.toNat ⌊(reqW.quantity : ℚ) * r⌋,
    student_quantity := reqW.quantity - Int.toNat ⌊(reqW.quantity : ℚ) * r⌋,
    teacher_cost := 21/200, student_cost := 21/200000,
    total_cost := 21/200 + 21/200000,
    expected_quality := 0 * r + 0 * (1 - r),
    teacher_ratio := r,
    efficiency_score := (0 * r + 0 * (1 - r)) / (21/200 + 21/200000) }

/-- The teacher cost estimate in the witness configuration. -/
theorem estimateW_A (q : ℕ) :
    estimate_generation_cost profilesW { reqW with quantity := q } "A_a" =
      Except.ok
        { estimated_input_tokens := 105
          estimated_output_tokens := 50 * q
          estimated_cost := 21/200
          estimated_time := (q : ℚ)
          quality_expectation := 0
          confidence := 1 } := by
  unfold estimate_generation_cost
  rw [show profileLookup profilesW "A_a" = some profA from rfl]
  norm_num [profA, reqW, estimate_input_tokens, estimate_output_tokens,
    tokens_per_item]

/-- The student cost estimate in the witness configuration. -/
theorem estimateW_B (q : ℕ) :
    estimate_generation_cost profilesW { reqW with quantity := q } "B_b" =
      Except.ok
        { estimated_input_tokens := 105
          estimated_output_tokens := 50 * q
          estimated_cost := 21/200000
          estimated_time := (q : ℚ)
          quality_expectation := 0
          confidence := 1 } := by
  unfold estimate_generation_cost
  rw [show profileLookup profilesW "B_b" = some profB from rfl]
  norm_num [profB, reqW, estimate_input_tokens, estimate_output_tokens,
    tokens_per_item]

/-- With no profile above the teacher quality bar, selection falls back
to the first registered key. -/
theorem selectW_T : select_best_teacher_model profilesW =
    Except.ok "A_a" := by
  have hf : profilesW.filter
      (fun kv => kv.2.quality_rating > 4/5) = [] := by
    norm_num [profilesW, profA, profB, List.filter_cons]
  unfold select_best_teacher_model
  rw [hf]
  rfl

/-- The cheap profile is selected as student. -/
theorem selectW_S : select_best_student_model profilesW =
    Except.ok "B_b" := by
  have hf : profilesW.filter
      (fun kv => kv.2.input_cost_per_token < 1/100) = [("B_b", profB)] := by
    norm_num [profilesW, profA, profB, List.filter_cons]
  unfold select_best_student_model
  rw [hf]
  rfl

/-- Every ratio passes the filters in the witness configuration, is
scored zero, and yields the witness allocation. -/
theorem evalW (r : ℚ) :
    evalCandidate profilesW reqW budgetCX "A_a" "B_b" r =
      Except.ok (some (0, allocW r)) := by
  rw [evalCandidate_eq profilesW reqW budgetCX "A_a" "B_b" r _ _
    (estimateW_A _) (estimateW_B _)]
  unfold evalCandidateCore
  dsimp only
  rw [if_neg (show ¬ ((21:ℚ)/200 + 21/200000 > budgetCX.total_budget) by
    norm_num [budgetCX])]
  rw [if_neg (show ¬ ((0:ℚ) * r + 0 * (1 - r) < reqW.quality_threshold) by
    show ¬ ((0:ℚ) * r + 0 * (1 - r) < 0)
    simp)]
  rw [if_neg (show ¬ ((21:ℚ)/200 + 21/200000 = 0) by norm_num)]
  simp [allocW]

/-- A fold whose remaining candidates all score zero never improves on a
zero best score, so the incoming best allocation survives. -/
theorem allocFold_zero_scores (profiles : ProfileMap) (req : CostRequest)
    (budget : CostBudget) (tm sm : String) (f : ℚ → Allocation) :
    ∀ (rs : List ℚ),
    (∀ r ∈ rs, evalCandidate profiles req budget tm sm r =
      Except.ok (some (0, f r))) →
    ∀ (best : Option Allocation),
    allocFold profiles req budget tm sm rs 0 best = Except.ok best := by
  intro rs
  induction rs with
  | nil => intro _ best; rfl
  | cons r rs ih =>
    intro hall best
    rw [show allocFold profiles req budget tm sm (r :: rs) 0 best = do
        let c ← evalCandidate profiles req budget tm sm r
        match c with
        | none => allocFold profiles req budget tm sm rs 0 best
        | some (score, alloc) =>
          if score > 0 then
            allocFold profiles req budget tm sm rs score (some alloc)
          else
            allocFold profiles req budget tm sm rs 0 best
      from rfl]
    rw [hall r (List.mem_cons_self r rs)]
    show (if (0:ℚ) > 0 then
        allocFold profiles req budget tm sm rs 0 (some (f r))
      else
        allocFold profiles req budget tm sm rs 0 best) = Except.ok best
    rw [if_neg (lt_irrefl (0:ℚ))]
    exact ih (fun x hx => hall x (List.mem_cons_of_mem r hx)) best

/-- C3 witness: in the witness configuration the optimizer returns an
allocation, and the amended guarantees hold for it. -/
theorem c3_witness :
    ∃ a, optimize_teacher_student_allocation profilesW reqW budgetCX =
        Except.ok (AllocationOutcome.found a) ∧
      a.total_cost ≤ budgetCX.total_budget ∧
      reqW.quality_threshold ≤ a.expected_quality ∧
      a.teacher_ratio ∈ allocCandidates := by
  obtain ⟨r0, rs0, hsplit⟩ : ∃ r rs, allocCandidates = r :: rs := ⟨_, _, rfl⟩
  have hall : ∀ r ∈ allocCandidates,
      evalCandidate profilesW reqW budgetCX "A_a" "B_b" r =
      Except.ok (some (0, allocW r)) := fun r _ => evalW r
  have hbindS : ∀ (a : String)
      (g : String → Except String AllocationOutcome),
      (Except.ok a >>= g) = g a := fun _ _ => rfl
  have hbindB : ∀ (a : Option Allocation)
      (g : Option Allocation → Except String AllocationOutcome),
      (Except.ok a >>= g) = g a := fun _ _ => rfl
  have hbindO : ∀ (a : Option (ℚ × Allocation))
      (g : Option (ℚ × Allocation) → Except String (Option Allocation)),
      (Except.ok a >>= g) = g a := fun _ _ => rfl
  have hok : optimize_teacher_student_allocation profilesW reqW budgetCX =
      Except.ok (AllocationOutcome.found (allocW r0)) := by
    unfold optimize_teacher_student_allocation
    rw [selectW_T]
    simp only [hbindS]
    rw [selectW_S]
    simp only [hbindS]
    rw [hsplit]
    simp only [allocFold]
    rw [hall r0 (hsplit ▸ List.mem_cons_self r0 rs0)]
    simp only [hbindO]
    rw [if_pos (by norm_num : (0:ℚ) > -1)]
    rw [allocFold_zero_scores profilesW reqW budgetCX "A_a" "B_b" allocW rs0
      (fun x hx => hall x (hsplit ▸ List.mem_cons_of_mem r0 hx))
      (some (allocW r0))]
    simp only [hbindB]
    rfl
  refine ⟨allocW r0, hok, ?_⟩
  have := c3_allocation_guarantees profilesW reqW budgetCX (allocW r0) hok
  exact this
